import Mathlib

/-!
Verification development for the Pulso Analytics IA repository.

The Python sources (`datasets_config.py`, `data_loader.py`, `gdrive_client.py`,
`main.py`) are shallowly embedded below: pure helpers become Lean functions,
the HTTP handlers become pure functions from an explicit environment, session
and oracle record to a response paired with an effect count, and the Python
heap (needed for the aliasing behaviour of the per-request table copies) is
modelled as an explicit store.  External services (the OpenAI chat API, the
Google Drive API, the spreadsheet parser) are parameters of the model: an
`Oracles` record supplies their outcomes, keyed by the semantic inputs the
source passes to them.
-/

set_option maxRecDepth 10000

deriving instance DecidableEq for Except

namespace Pulso

/-! ## Character-level model of the text pipeline

`_norm_text` in `main.py` lowers, strips accents via
`unicodedata.normalize("NFKD")` plus a combining-mark filter, and collapses
whitespace.  The Unicode tables are modelled on the fragment of characters the
development evaluates: ASCII, the accented vowels appearing in the sources and
the test strings, the combining acute accent they decompose into, and the
letterlike symbol `ℂ` (which has a compatibility decomposition to an uppercase
`C` but no lowercase mapping).  Outside this fragment both `pyLowerChar` and
`nfkdChar` act as the identity, which agrees with Python on every character any
theorem below evaluates. -/

/-- Whitespace characters recognised by Python's `str.strip` / `str.split`
(ASCII fragment). -/
def isSpaceChar (c : Char) : Bool :=
  c = ' ' || c = '\t' || c = '\n' || c = '\x0d' || c = '\x0b' || c = '\x0c'

/-- Fragment of Python `str.lower`: ASCII letters and the accented capitals
used in the sources.  `ℂ` (U+2102) has no lowercase mapping in UnicodeData, so
Python's `lower` leaves it unchanged, as does this model. -/
def pyLowerChar (c : Char) : Char :=
  if 65 ≤ c.toNat ∧ c.toNat ≤ 90 then Char.ofNat (c.toNat + 32)
  else if c = 'Á' then 'á'
  else if c = 'É' then 'é'
  else if c = 'Í' then 'í'
  else c

/-- The combining acute accent U+0301, the only combining mark produced by the
modelled decompositions. -/
def accMark : Char := Char.ofNat 0x0301

/-- Fragment of `unicodedata.combining c ≠ 0`. -/
def combiningChar (c : Char) : Bool := c.toNat = 0x0301

/-- Fragment of the NFKD decomposition of a single character: the accented
lowercase vowels decompose into the base letter followed by the combining
acute accent, and `ℂ` has the compatibility decomposition `C`.  All characters
in the modelled fragment decompose independently and in canonical order, so
decomposing a string is the concatenation of the per-character decompositions. -/
def nfkdChar (c : Char) : List Char :=
  if c = 'á' then ['a', accMark]
  else if c = 'é' then ['e', accMark]
  else if c = 'í' then ['i', accMark]
  else if c = 'ℂ' then ['C']
  else [c]

/-- Python `str.strip` on a character list. -/
def stripList (l : List Char) : List Char :=
  ((l.dropWhile isSpaceChar).reverse.dropWhile isSpaceChar).reverse

theorem dropWhile_length_le (p : Char → Bool) (l : List Char) :
    (l.dropWhile p).length ≤ l.length := by
  induction l with
  | nil => simp
  | cons c cs ih =>
    by_cases h : p c
    · simp only [List.dropWhile_cons, h, if_true]
      exact Nat.le_trans ih (Nat.le_succ _)
    · simp [List.dropWhile_cons, h]

/-- Worker for Python `str.split()`: `cur` is the current word accumulated in
reverse. -/
def splitWordsAux : List Char → List Char → List (List Char)
  | [], cur => if cur.isEmpty then [] else [cur.reverse]
  | c :: rest, cur =>
    if isSpaceChar c then
      if cur.isEmpty then splitWordsAux rest []
      else cur.reverse :: splitWordsAux rest []
    else splitWordsAux rest (c :: cur)

/-- Python `str.split()` (split on whitespace runs, dropping empty chunks). -/
def splitWords (l : List Char) : List (List Char) := splitWordsAux l []

/-- Python `" ".join ws`. -/
def joinSpace : List (List Char) → List Char
  | [] => []
  | w :: ws =>
    match ws with
    | [] => w
    | _ :: _ => w ++ ' ' :: joinSpace ws

/-- The body of `_norm_text` (main.py lines 34-41) on a character list:
strip, lower, NFKD-decompose, drop combining marks, collapse whitespace. -/
def normList (l : List Char) : List Char :=
  joinSpace (splitWords
    ((((stripList l).map pyLowerChar).flatMap nfkdChar).filter (fun c => !combiningChar c)))

/-- `_norm_text` on a (non-null) string. -/
def normStr (s : String) : String := String.mk (normList s.toList)

/-- `_norm_text` (main.py lines 34-41): a null argument yields `""`, otherwise
the normalisation pipeline runs on the string. -/
def norm_text : Option String → String
  | none => ""
  | some s => normStr s

/-- Python `str.lower` on a whole string (character-wise on the fragment). -/
def pyLowerStr (s : String) : String := String.mk (s.toList.map pyLowerChar)

/-- Python `str.strip` on a string. -/
def pyStripStr (s : String) : String := String.mk (stripList s.toList)

/-! ### Substring containment -/

/-- `isStartOf p s`: `p` is a prefix of `s`. -/
def isStartOf : List Char → List Char → Bool
  | [], _ => true
  | _ :: _, [] => false
  | c :: cs, d :: ds => c = d && isStartOf cs ds

/-- `occursIn p s`: `p` occurs contiguously inside `s`. -/
def occursIn (p : List Char) : List Char → Bool
  | [] => isStartOf p []
  | d :: ds => isStartOf p (d :: ds) || occursIn p ds

/-- `containsSubstr s pat`: Python's `pat in s`. -/
def containsSubstr (s pat : String) : Bool := occursIn pat.toList s.toList

theorem isStartOf_refl (p : List Char) : isStartOf p p = true := by
  induction p with
  | nil => rfl
  | cons c cs ih => simp [isStartOf, ih]

theorem isStartOf_append_right (p : List Char) (t : List Char) :
    ∀ s, isStartOf p s = true → isStartOf p (s ++ t) = true := by
  induction p with
  | nil => intro s _; rfl
  | cons c cs ih =>
    intro s h
    cases s with
    | nil => simp [isStartOf] at h
    | cons d ds =>
      simp only [isStartOf, Bool.and_eq_true, decide_eq_true_eq] at h
      simp only [List.cons_append, isStartOf, Bool.and_eq_true, decide_eq_true_eq]
      exact ⟨h.1, ih ds h.2⟩

theorem isStartOf_self_append (p t : List Char) : isStartOf p (p ++ t) = true :=
  isStartOf_append_right p t p (isStartOf_refl p)

theorem occursIn_extend_right (p s : List Char) (h : occursIn p s = true) (t : List Char) :
    occursIn p (s ++ t) = true := by
  induction s with
  | nil =>
    cases p with
    | nil => cases t <;> simp [occursIn, isStartOf]
    | cons c cs => simp [occursIn, isStartOf] at h
  | cons d ds ih =>
    simp only [occursIn, Bool.or_eq_true, List.cons_append] at h ⊢
    rcases h with h | h
    · exact Or.inl (isStartOf_append_right p t _ h)
    · exact Or.inr (ih h)

theorem occursIn_extend_left (p s : List Char) (h : occursIn p s = true) (t : List Char) :
    occursIn p (t ++ s) = true := by
  induction t with
  | nil => simpa using h
  | cons c cs ih => simp [occursIn, ih]

/-- Any string occurs inside `pre ++ mid ++ post` whenever it occurs in `mid`. -/
theorem occursIn_mid (p pre mid post : List Char) (h : occursIn p mid = true) :
    occursIn p (pre ++ mid ++ post) = true := by
  rw [List.append_assoc]
  exact occursIn_extend_left _ _ (occursIn_extend_right _ _ h _) _

theorem occursIn_refl (p : List Char) : occursIn p p = true := by
  cases p with
  | nil => rfl
  | cons c cs =>
    have := isStartOf_refl (c :: cs)
    simp [occursIn, this]

/-- Python `str.replace` (all non-overlapping occurrences, left to right) on
character lists.  The first argument is a structural-recursion bound; with
`fuel = l.length` and a non-empty pattern it is never exhausted. -/
def replaceFuel (pat rep : List Char) : Nat → List Char → List Char
  | _, [] => []
  | 0, l => l
  | fuel + 1, c :: cs =>
    if isStartOf pat (c :: cs) then rep ++ replaceFuel pat rep fuel ((c :: cs).drop pat.length)
    else c :: replaceFuel pat rep fuel cs

/-- Python `s.replace(pat, rep)` for a non-empty pattern. -/
def pyReplace (s pat rep : String) : String :=
  String.mk (replaceFuel pat.toList rep.toList s.toList.length s.toList)

/-! ## Model of `difflib` sequence matching

`best_match` (main.py lines 44-65) calls `difflib.get_close_matches(qn,
norm_list, n=1, cutoff=cutoff)`.  The similarity score is
`SequenceMatcher.ratio()`: twice the total size of the matching blocks divided
by the combined length.  The matching blocks come from the recursive
`find_longest_match` decomposition.  The strings compared here are far shorter
than 200 characters, so difflib's `autojunk` heuristic never marks any junk
element; the junk tests in the source are therefore identically false and are
omitted.  Scores are modelled as exact rationals and the float literal `0.72`
as `18/25`: for the short strings involved, IEEE double rounding of `2*M/T`
and of `0.72` never changes a comparison against the cutoff. -/

/-- Positions (ascending) of character `c` in `b`: difflib's `b2j` table. -/
def b2j (b : List Char) (c : Char) : List Nat :=
  (List.range b.length).filter (fun j => b.getD j ' ' = c)

/-- Lookup in the `j2len` map with default 0. -/
def j2get (m : List (Nat × Nat)) (j : Nat) : Nat := (m.lookup j).getD 0

/-- State of the `find_longest_match` scan: best block start in `a`, start in
`b`, and size. -/
structure FlmBest where
  besti : Nat
  bestj : Nat
  bestsize : Nat

/-- The dynamic-programming scan of `find_longest_match`: for each `i` in
`[alo, ahi)` it extends, via the `j2len` map from the previous row, every
match of `a[i]` at a position `j ∈ [blo, bhi)` of `b`, recording the first
longest block found. -/
def flmScan (a b : List Char) (alo ahi blo bhi : Nat) : FlmBest :=
  (List.range' alo (ahi - alo)).foldl
    (fun (st : FlmBest × List (Nat × Nat)) i =>
      (b2j b (a.getD i ' ')).foldl
        (fun (p : FlmBest × List (Nat × Nat)) j =>
          if blo ≤ j ∧ j < bhi then
            let k := (if j = 0 then 0 else j2get st.2 (j - 1)) + 1
            let best := if k > p.1.bestsize then FlmBest.mk (i + 1 - k) (j + 1 - k) k else p.1
            (best, (j, k) :: p.2)
          else p)
        (st.1, []))
    (⟨alo, blo, 0⟩, []) |>.1

/-- The left extension loop of `find_longest_match` (junk-free form).  The
first argument is a structural-recursion bound: the loop decrements `bi` and
stops at `alo`, so starting it with `fuel = bi` is never exhausted. -/
def extLeft (a b : List Char) (alo blo : Nat) : Nat → Nat → Nat → Nat → Nat × Nat × Nat
  | 0, bi, bj, bs => (bi, bj, bs)
  | fuel + 1, bi, bj, bs =>
    if alo < bi ∧ blo < bj ∧ a.getD (bi - 1) ' ' = b.getD (bj - 1) ' ' then
      extLeft a b alo blo fuel (bi - 1) (bj - 1) (bs + 1)
    else (bi, bj, bs)

/-- The right extension loop of `find_longest_match` (junk-free form).  The
first argument is a structural-recursion bound: the loop increments `bs`
while `bi + bs < ahi`, so starting it with `fuel = ahi` is never exhausted. -/
def extRight (a b : List Char) (ahi bhi bi bj : Nat) : Nat → Nat → Nat
  | 0, bs => bs
  | fuel + 1, bs =>
    if bi + bs < ahi ∧ bj + bs < bhi ∧ a.getD (bi + bs) ' ' = b.getD (bj + bs) ' ' then
      extRight a b ahi bhi bi bj fuel (bs + 1)
    else bs

/-- difflib's `SequenceMatcher.find_longest_match` restricted to junk-free
sequences: the dynamic scan followed by the two extension loops. -/
def find_longest_match (a b : List Char) (alo ahi blo bhi : Nat) : Nat × Nat × Nat :=
  let s := flmScan a b alo ahi blo bhi
  let e := extLeft a b alo blo s.besti s.besti s.bestj s.bestsize
  (e.1, e.2.1, extRight a b ahi bhi e.1 e.2.1 ahi e.2.2)

/-- Total size of the matching blocks of `a[alo:ahi]` against `b[blo:bhi]`:
the recursive decomposition used by `get_matching_blocks`.  The explicit bound
is a structural-termination device only: every range shrinks strictly at each
recursive call, so a bound of `|a| + |b| + 1` is never exhausted. -/
def matchTotal (a b : List Char) : Nat → Nat → Nat → Nat → Nat → Nat
  | 0, _, _, _, _ => 0
  | fuel + 1, alo, ahi, blo, bhi =>
    let r := find_longest_match a b alo ahi blo bhi
    if r.2.2 = 0 then 0
    else
      matchTotal a b fuel alo r.1 blo r.2.1 + r.2.2 +
        matchTotal a b fuel (r.1 + r.2.2) ahi (r.2.1 + r.2.2) bhi

/-- An exact non-negative fraction with positive denominator.  difflib scores
are the floats `2*M/T`; for the short strings compared here IEEE double
rounding never changes a comparison between two scores or against the float
literal `0.72`, so scores are modelled as exact fractions compared by
cross-multiplication. -/
structure Frac where
  num : Nat
  den : Nat
deriving DecidableEq

/-- Fraction comparison `x ≤ y` by cross-multiplication. -/
def Frac.fle (x y : Frac) : Bool := decide (x.num * y.den ≤ y.num * x.den)

/-- Fraction comparison `x < y` by cross-multiplication. -/
def Frac.flt (x y : Frac) : Bool := decide (x.num * y.den < y.num * x.den)

/-- Fraction equality `x = y` (as rational values) by cross-multiplication. -/
def Frac.feq (x y : Frac) : Bool := decide (x.num * y.den = y.num * x.den)

/-- `SequenceMatcher(None, a, b).ratio()`: `2*M/T`, or 1 when both sequences
are empty (difflib's `_calculate_ratio`). -/
def similarity (a b : List Char) : Frac :=
  if a.length + b.length = 0 then ⟨1, 1⟩
  else ⟨2 * matchTotal a b (a.length + b.length + 1) 0 a.length 0 b.length,
    a.length + b.length⟩

/-- Python string comparison `x < y` (lexicographic on code points). -/
def pyStrLtL : List Char → List Char → Bool
  | [], [] => false
  | [], _ :: _ => true
  | _ :: _, [] => false
  | c :: cs, d :: ds =>
    if c.toNat < d.toNat then true
    else if d.toNat < c.toNat then false
    else pyStrLtL cs ds

/-- `difflib.get_close_matches(word, possibilities, n=1, cutoff)`, returning
the single closest candidate: the filter keeps candidates whose ratio meets
the cutoff (the `real_quick_ratio`/`quick_ratio` tests in the source are upper
bounds of `ratio` and eliminate nothing more), and `heapq.nlargest(1, ·)` on
`(score, candidate)` pairs picks the largest pair, breaking score ties by
Python string comparison of the candidates. -/
def getCloseMatches1 (word : String) (possibilities : List String) (cutoff : Frac) :
    Option String :=
  (possibilities.foldl
    (fun (best : Option (Frac × String)) x =>
      let r := similarity x.toList word.toList
      if cutoff.fle r then
        match best with
        | none => some (r, x)
        | some (rb, xb) =>
          if rb.flt r || (rb.feq r && pyStrLtL xb.toList x.toList) then some (r, x)
          else some (rb, xb)
      else best)
    none).map (·.2)

/-- The `norm_map`/`norm_list` construction of `best_match` (main.py lines
54-60): candidates are normalised and deduplicated by their normalised form,
the first original spelling winning for a given key. -/
def buildNormMap (choices : List String) : List (String × String) × List String :=
  choices.foldl
    (fun (acc : List (String × String) × List String) c =>
      let cn := normStr c
      if cn ≠ "" ∧ acc.1.lookup cn = none then
        (acc.1 ++ [(cn, c)], acc.2 ++ [cn])
      else acc)
    ([], [])

/-- `best_match` (main.py lines 44-65).  The final `norm_map[matches[0]]`
indexing in the source cannot fail because every member of `norm_list` is a
key of `norm_map` by construction; the model returns the lookup directly. -/
def best_match (query : String) (choices : List String) (cutoff : Frac) : Option String :=
  if query = "" ∨ choices = [] then none
  else
    let qn := normStr query
    let nm := buildNormMap choices
    match getCloseMatches1 qn nm.2 cutoff with
    | none => none
    | some m => nm.1.lookup m

/-- The cutoff `0.72` hard-wired by `smart_filter` (and the default of
`best_match`). -/
def cutoff072 : Frac := ⟨18, 25⟩

/-! ## Tables

A pandas `DataFrame` is modelled as an ordered column list plus rows of cells.
A cell is `none` for a missing value (`NaN`) and `some s` for a present value,
where `s` is the text Python's `str()` renders for it; `astype(str)` maps a
missing value to the literal text `"nan"`. -/

/-- A cell: `none` is pandas `NaN`, `some s` a present value rendered as text. -/
abbrev Cell := Option String

/-- A pandas DataFrame: ordered named columns and ordered rows of cells. -/
structure DataFrame where
  columns : List String
  rows : List (List Cell)
deriving DecidableEq

/-- `astype(str)` on one cell: `NaN` becomes the text `"nan"`. -/
def astypeStr : Cell → String
  | none => "nan"
  | some s => s

/-- The cell of row `r` in the column at index `i`. -/
def cellAt (r : List Cell) (i : Nat) : Cell := r.getD i none

/-- `df[mask]`: keep the rows whose mask entry is true. -/
def maskFilterRows (rows : List (List Cell)) (mask : List Bool) : List (List Cell) :=
  (rows.zip mask).filterMap (fun p => if p.2 then some p.1 else none)

/-- `unique().tolist()`: distinct values in first-occurrence order. -/
def dedupKeepFirst (l : List String) : List String :=
  l.foldl (fun acc x => if x ∈ acc then acc else acc ++ [x]) []

/-! ## Model of `Series.str.contains`

`smart_filter` calls `series_norm.str.contains(qn, na=False)`.  pandas
documents `str.contains` with its default `regex=True` as `re.search` of the
pattern against each value.  The pattern fragment modelled here is the one
every theorem below evaluates: literal characters plus the `.` wildcard
(which matches any character except a newline).  A pattern using any other
regex metacharacter is outside the fragment and is mapped to a compilation
error; for the concrete pattern `"("` used below this agrees exactly with
Python, where `re.compile("(")` raises `re.error` (an unterminated
subexpression), which `str.contains` propagates. -/

/-- A compiled pattern atom of the modelled regex fragment. -/
inductive ReAtom
  | lit (c : Char)
  | dot
deriving DecidableEq

/-- The characters `re` treats as metacharacters. -/
def reMetaChars : List Char :=
  ['.', '^', '$', '*', '+', '?', '\\', '|', '[', ']', '(', ')', '\x7b', '\x7d']

/-- Compile a pattern of the literal/dot fragment; any other metacharacter is
outside the modelled fragment. -/
def compileRe (p : String) : Option (List ReAtom) :=
  p.toList.mapM (fun c =>
    if c = '.' then some ReAtom.dot
    else if c ∈ reMetaChars then none
    else some (ReAtom.lit c))

/-- One atom against one character; `.` does not match a newline. -/
def atomMatches : ReAtom → Char → Bool
  | ReAtom.lit c, d => c = d
  | ReAtom.dot, d => d ≠ '\n'

/-- Match the whole atom list against a prefix of `s`. -/
def reMatchHere : List ReAtom → List Char → Bool
  | [], _ => true
  | _ :: _, [] => false
  | a :: ps, c :: cs => atomMatches a c && reMatchHere ps cs

/-- `re.search`: the atoms match starting at some position of `s`. -/
def reSearchL (ps : List ReAtom) : List Char → Bool
  | [] => reMatchHere ps []
  | c :: cs => reMatchHere ps (c :: cs) || reSearchL ps cs

/-- `smart_filter` (main.py lines 68-94): the two-stage filter ladder.  The
result is `Except`: `.error` models the `re.error` exception that
`str.contains` raises on an uncompilable pattern; every other path returns
`.ok`.  The final `if bm:` of the source is a Python truthiness test, so the
model also treats an empty matched string as no match (it cannot arise:
`best_match` only returns candidates whose normalisation is non-empty). -/
def smart_filter (df : DataFrame) (col : String) (query : String) :
    Except String DataFrame :=
  if col ∈ df.columns then
    let qn := normStr query
    if qn = "" then Except.ok df
    else
      match compileRe qn with
      | none => Except.error "re.error: bad pattern"
      | some pat =>
        let i := df.columns.indexOf col
        let seriesNorm := df.rows.map (fun r => normStr (astypeStr (cellAt r i)))
        let mask := seriesNorm.map (fun s => reSearchL pat s.toList)
        let hit := maskFilterRows df.rows mask
        if hit.isEmpty then
          let uniques := dedupKeepFirst (df.rows.filterMap (fun r => cellAt r i))
          match best_match query uniques cutoff072 with
          | some bm =>
            if bm = "" then Except.ok df
            else Except.ok ⟨df.columns, df.rows.filter (fun r => astypeStr (cellAt r i) = bm)⟩
          | none => Except.ok df
        else Except.ok ⟨df.columns, hit⟩
  else Except.ok df

/-- The filter ladder exactly as claim C5 words it, with stage 1 reading
"contains the normalized query as a substring" literally.  This definition
follows the specification's words, not the source, and exists only to be
compared with `smart_filter`. -/
def smart_filter_claimed (df : DataFrame) (col : String) (query : String) : DataFrame :=
  if col ∈ df.columns then
    let qn := normStr query
    if qn = "" then df
    else
      let i := df.columns.indexOf col
      let hit := df.rows.filter (fun r => containsSubstr (normStr (astypeStr (cellAt r i))) qn)
      if hit.isEmpty then
        match best_match query (dedupKeepFirst (df.rows.filterMap (fun r => cellAt r i)))
            cutoff072 with
        | some bm => ⟨df.columns, df.rows.filter (fun r => astypeStr (cellAt r i) = bm)⟩
        | none => df
      else ⟨df.columns, hit⟩
  else df

/-! ## The dataset registry (`datasets_config.py`)

The module assigns `DATASETS_SPREADSHEETS` three times (lines 16-29, 42-48 and
50-56).  Python rebinding semantics make the last assignment the value the
importing modules see; the two earlier assignments are kept under explicit
revision names because the specification refers to them. -/

/-- One registry entry: display name and (optional) Drive file id, mirroring
the `{"name": ..., "drive_file_id": ...}` dictionaries of the source. -/
structure DatasetEntry where
  name : String
  drive_file_id : Option String
deriving DecidableEq

/-- The first assignment of `DATASETS_SPREADSHEETS` (lines 16-29). -/
def DATASETS_SPREADSHEETS_rev1 : List (String × DatasetEntry) :=
  [("noi_inmuebles",
      ⟨"Finanzas – noi inmuebles", some "1evlA46rpcMJ129Dwj33Eycg64yNwoTi9"⟩),
   ("gestion_personal",
      ⟨"Gestión de Personal – gestion personal",
        some "13hRSF7BPFbHWZ16sQgRd8ix8JGxp2JkSPirQQ3ij2bA"⟩),
   ("operaciones",
      ⟨"Operaciones – operaciones", some "1uG4Z-EmrKT-KjOW5RKWZt1oCr9EgOn23yFb1-LW-D3M"⟩)]

/-- The second assignment (lines 42-48), ending in a `# el resto...` comment. -/
def DATASETS_SPREADSHEETS_rev2 : List (String × DatasetEntry) :=
  [("test_noi_ia",
      ⟨"Finanzas – TEST NOI IA", some "1HNAMX0wdOj-Lv5sUydk_rFp6Er5U8P4RSjCcILdOX-4"⟩)]

/-- The third and final assignment (lines 50-56), also ending in a
`# el resto...` comment. -/
def DATASETS_SPREADSHEETS_rev3 : List (String × DatasetEntry) :=
  [("gestion_personal",
      ⟨"Personal – gestion_personal", some "13hRSF7BPFbHWZ16sQgRd8ix8JGxp2JkSPirQQ3ij2bA"⟩)]

/-- `DATASETS_SPREADSHEETS` as importers observe it: the last assignment. -/
def DATASETS_SPREADSHEETS : List (String × DatasetEntry) := DATASETS_SPREADSHEETS_rev3

/-- The document registry (lines 35-40), assigned once. -/
def DATASETS_DOCUMENTS : List (String × DatasetEntry) :=
  [("contrato_espamex_1412_23_0000",
      ⟨"1412-23-0000-ESPAMEX-CTO", some "16L2ZyXT8cY27d0Z9bIBzLtlsD2evAhe_"⟩)]

/-- Registry resolution: the `dataset_id in DATASETS_SPREADSHEETS` membership
test plus `DATASETS_SPREADSHEETS[dataset_id]` indexing idiom used by
`data_loader.py` (lines 83-86) and `main.py`. -/
def resolve (registry : List (String × DatasetEntry)) (dataset_id : String) :
    Option DatasetEntry :=
  registry.lookup dataset_id

/-! ## The cloud dataset loader (`data_loader.py` lines 75-105)

A table set / workbook: sheets keyed by sheet name, in workbook order. -/

/-- A loaded table set: `{sheet_name: DataFrame}` in sheet order. -/
abbrev Workbook := List (String × DataFrame)

/-- The body of `load_tables_from_drive_dataset`: registry check, file-id
check, then download-and-parse.  `download` stands for
`download_spreadsheet_as_excel` composed with `pd.read_excel(·,
sheet_name=None)`: given a Drive file id it yields the parsed sheets, or the
error any transport/parse failure raises.  The `if not file_id:` test is a
Python truthiness test, so a missing key and an empty string both fail.  (The
`def` of this function and its entire body are written at the same
indentation in the source; see the C1 theorem.) -/
def load_tables_from_drive_dataset (download : String → Except String Workbook)
    (dataset_id : String) : Except String Workbook :=
  match resolve DATASETS_SPREADSHEETS dataset_id with
  | none =>
    Except.error ("Dataset '" ++ dataset_id ++ "' no está configurado en DATASETS_SPREADSHEETS.")
  | some cfg =>
    match cfg.drive_file_id with
    | none =>
      Except.error ("Dataset '" ++ dataset_id ++ "' no tiene drive_file_id configurado.")
    | some fid =>
      if fid = "" then
        Except.error ("Dataset '" ++ dataset_id ++ "' no tiene drive_file_id configurado.")
      else
        match download fid with
        | Except.error e => Except.error e
        | Except.ok xls =>
          Except.ok (xls.foldl (fun acc p => acc ++ [p]) [])

/-- Indentation, in spaces, of the `def load_tables_from_drive_dataset` line
(src/data_loader.py line 75). -/
def loadDrive_def_indent : Nat := 4

/-- Indentation, in spaces, of the first statement of that `def`'s body — its
docstring (src/data_loader.py line 76); the remaining body statements (lines
83-105) share this indentation. -/
def loadDrive_body_indent : Nat := 4

/-- Python's block rules for a `def` that binds a module-level name: the `def`
keyword must sit at column 0, and the body must be indented strictly deeper
than the `def` line (otherwise the module raises `IndentationError` on
import). -/
def pythonModuleLevelDef (defIndent bodyIndent : Nat) : Bool :=
  defIndent = 0 && defIndent < bodyIndent

/-! ## The HTTP service (`main.py`)

Configuration, sessions, and the handlers of the data-bearing routes.  A
handler is a pure function from the process environment, an `Oracles` record
(the outcomes of the external calls the request would make), the request
session and the request payload to an `HttpResponse` paired with an `Effects`
count of the externally visible pipeline actions the handler performed:
dataset loads, chat-completion calls, and snippet executions.  FastAPI runs a
`Depends(require_auth)` dependency before the handler body and turns the
`HTTPException(401)` it raises into a 401 response without entering the body;
each handler below therefore starts with that guard. -/

/-- The process environment (`os.environ`). -/
abbrev Env := String → Option String

/-- `os.getenv(k, d)` / `os.environ.get(k, d)`. -/
def getenv (env : Env) (k d : String) : String := (env k).getD d

/-- `ENV = os.getenv("ENV", "local").lower()` (main.py line 97). -/
def ENV_value (env : Env) : String := pyLowerStr (getenv env "ENV" "local")

/-- `IS_PROD = ENV == "prod"` (main.py line 98). -/
def IS_PROD (env : Env) : Bool := ENV_value env = "prod"

/-- `ENVIRONMENT = os.environ.get("ENVIRONMENT", "development")` (line 109). -/
def ENVIRONMENT_value (env : Env) : String := getenv env "ENVIRONMENT" "development"

/-- `docs_url="/docs" if ENVIRONMENT != "production" else None` (line 112):
the interactive-docs mount point, `none` when disabled. -/
def docs_url (env : Env) : Option String :=
  if ENVIRONMENT_value env ≠ "production" then some "/docs" else none

/-- The session state `require_auth` and the handlers read. -/
structure Session where
  authenticated : Bool
  user_email : Option String
deriving DecidableEq

/-- Count of externally visible pipeline actions a handler performed. -/
structure Effects where
  datasetLoads : Nat
  modelCalls : Nat
  snippetExecs : Nat
deriving DecidableEq

/-- A handler outcome: HTTP status and the response text (for the `/ask`
family this is the `AskResponse.answer` field). -/
structure HttpResponse where
  status : Nat
  answer : String
deriving DecidableEq

/-- The value the generated snippet left in `result`, as the endpoint
inspects it: a DataFrame, a Series (rendered entries), or any other value
with its runtime type name and text. -/
inductive ResultVal
  | frame (df : DataFrame)
  | series (entries : List (String × String))
  | other (typeName : String) (text : String)
deriving DecidableEq

/-- Outcome of `exec(code, safe_globals, safe_locals)` followed by
`safe_locals.get("result")`: the snippet raised, or it finished and `result`
is absent (`none`) or holds a value. -/
inductive ExecOutcome
  | raises (msg : String)
  | finishes (result : Option ResultVal)
deriving DecidableEq

/-- Outcomes of the external calls one request can make.  The two
chat-completion oracles are keyed by the semantic inputs the source builds its
prompts from; the deterministic prompt-assembly text itself (table sample
description, hints, instructions) is not needed by any claim.  `reprFrame` and
`reprSeries` stand for the `to_dict` renderings interpolated into previews,
and `now` for the `datetime.now()` timestamp of the trace footer. -/
structure Oracles where
  codegenLLM : String → Workbook → Except String String
  explainLLM : String → String → String → Except String String
  execSnippet : String → Workbook → ExecOutcome
  download : String → Except String Workbook
  reprFrame : DataFrame → String
  reprSeries : List (String × String) → String
  now : String

/-- `"".join(·)` on a list of strings. -/
def concatAll : List String → String
  | [] => ""
  | s :: ss => s ++ concatAll ss

/-- `html.escape` with its default `quote=True`. -/
def htmlEscape (s : String) : String :=
  String.mk (s.toList.flatMap (fun c =>
    if c = '&' then "&amp;".toList
    else if c = '<' then "&lt;".toList
    else if c = '>' then "&gt;".toList
    else if c = '"' then "&quot;".toList
    else if c = '\'' then "&#x27;".toList
    else [c]))

/-- `error_card_html` (main.py lines 1056-1076): the structured HTML error
card the chat route renders.  The inter-tag layout whitespace of the source's
template is elided; every claim below depends only on the escaped text
content. -/
def error_card_html (title : String) (bullets : List String) (trace : Option String) :
    String :=
  let items := concatAll (bullets.map (fun b => "<li>" ++ htmlEscape b ++ "</li>"))
  let traceHtml :=
    match trace with
    | some t =>
      "<div style=\"margin-top:8px; font-size:12px; color:#6b7280;\">" ++ htmlEscape t ++ "</div>"
    | none => ""
  "<div style=\"max-width: 100%;\">" ++
    "<div style=\"font-weight:700; font-size:1.05rem; margin-bottom:6px;\">" ++
    htmlEscape title ++ "</div>" ++
    "<ul style=\"margin-left:18px; line-height:1.45;\">" ++ items ++ "</ul>" ++
    traceHtml ++ "</div>"

/-- `wrap_with_trace_html` (main.py lines 1079-1092): append the audit trace
footer to an answer. -/
def wrap_with_trace_html (answer_html : String) (dataset_id dataset_name : String)
    (user_email : Option String) (ts : String) : String :=
  let ue := user_email.getD "N/D"
  let trace := "Fuente: " ++ dataset_name ++ " | dataset_id: " ++ dataset_id ++
    " | Usuario: " ++ ue ++ " | " ++ ts
  answer_html ++
    "<div style=\"margin-top:10px; font-size:12px; color:#6b7280;\">" ++
    htmlEscape trace ++ "</div>"

/-- The fence-stripping cleanup of `generate_pandas_code` (lines 986-988). -/
def stripFences (text : String) : String :=
  pyStripStr (pyReplace (pyReplace text "```python" "") "```" "")

/-- `generate_pandas_code` (main.py lines 873-990): one chat-completion call
(whose transport failure propagates to the caller as the raised error), then
the fence-stripping cleanup of the returned snippet text. -/
def generate_pandas_code (o : Oracles) (question : String) (tables : Workbook) :
    Except String String :=
  match o.codegenLLM question tables with
  | Except.error e => Except.error e
  | Except.ok text => Except.ok (stripFences text)

/-- The preview truncation of `explain_result` (lines 1002-1004). -/
def truncatePreview (p : String) : String :=
  if 1500 < p.toList.length then
    String.mk (p.toList.take 1500) ++ "\n...[texto truncado para la explicación]"
  else p

/-- `explain_result` (main.py lines 994-1034): truncate the preview, one
chat-completion call, strip the reply. -/
def explain_result (o : Oracles) (question code preview : String) : Except String String :=
  match o.explainLLM question code (truncatePreview preview) with
  | Except.error e => Except.error e
  | Except.ok a => Except.ok (pyStripStr a)

/-- The preview formatting shared by `/ask` and `/ask/{dataset_id}` (lines
1202-1212): first 10 rows with a row count for a DataFrame, first 10 entries
with an element count for a Series, type name plus direct text otherwise. -/
def previewText (o : Oracles) : ResultVal → String
  | ResultVal.frame df =>
    "DataFrame (" ++ toString df.rows.length ++ " filas):\n" ++
      o.reprFrame ⟨df.columns, df.rows.take 10⟩
  | ResultVal.series es =>
    "Serie (" ++ toString es.length ++ " elementos):\n" ++ o.reprSeries (es.take 10)
  | ResultVal.other t x => "Resultado (" ++ t ++ "): " ++ x

/-- The code-generation / execution / explanation pipeline shared verbatim by
the bodies of `/ask` (lines 1177-1222) and `/ask/{dataset_id}` (lines
1242-1297); `wrap` is the identity for `/ask` and the trace-footer wrapper
for `/ask/{dataset_id}` (the source duplicates this block in both handlers).
The `tables` binding handed to the snippet is the per-request copy
`{name: df.copy() for ...}`; as a pure value it equals `tables`, and its
aliasing consequences are modelled separately on the Python heap. -/
def runPipeline (o : Oracles) (question : String) (tables : Workbook)
    (wrap : String → String) : HttpResponse × Effects :=
  match generate_pandas_code o question tables with
  | Except.error e =>
    (⟨200, "Error generando código: " ++ e⟩, ⟨0, 1, 0⟩)
  | Except.ok code =>
    match o.execSnippet code tables with
    | ExecOutcome.raises msg =>
      (⟨200, "Error ejecutando código generado:\n" ++ msg ++
        "\n\nCódigo generado:\n" ++ code⟩, ⟨0, 1, 1⟩)
    | ExecOutcome.finishes none =>
      (⟨200, "No se generó la variable 'result'. Código generado:\n" ++ code⟩, ⟨0, 1, 1⟩)
    | ExecOutcome.finishes (some r) =>
      let pv := previewText o r
      match explain_result o question code pv with
      | Except.error e =>
        (⟨200, wrap ("El análisis se ejecutó bien, pero hubo un error al generar la explicación: "
          ++ e ++ "\n\nVista previa del resultado:\n" ++ pv)⟩, ⟨0, 2, 1⟩)
      | Except.ok ex => (⟨200, wrap ex⟩, ⟨0, 2, 1⟩)

/-- The fixed production substitute message of `/ask` (lines 1165-1168). -/
def askProdMessage : String :=
  "Este endpoint ya no se usa en producción. Selecciona un dataset de Google Drive y consulta por /ask/{dataset_id}."

/-- `POST /ask` (main.py lines 1160-1222): auth dependency, production stub,
empty-default-table-set message, then the pipeline against the process-wide
default table set. -/
def ask_endpoint (env : Env) (o : Oracles) (session : Session)
    (tables_global : Workbook) (question : String) : HttpResponse × Effects :=
  if !session.authenticated then (⟨401, "Not authenticated"⟩, ⟨0, 0, 0⟩)
  else if IS_PROD env then (⟨200, askProdMessage⟩, ⟨0, 0, 0⟩)
  else if tables_global.isEmpty then
    (⟨200, "No hay datos cargados. Sube un archivo Excel primero."⟩, ⟨0, 0, 0⟩)
  else runPipeline o question tables_global (fun a => a)

/-- `POST /ask/{dataset_id}` (main.py lines 1225-1297): auth dependency, cloud
load (any failure degrades to a 200 answer naming the dataset and the error),
then the pipeline, its successful explanation wrapped in the trace footer. -/
def ask_on_dataset_endpoint (_env : Env) (o : Oracles) (session : Session)
    (dataset_id question : String) : HttpResponse × Effects :=
  if !session.authenticated then (⟨401, "Not authenticated"⟩, ⟨0, 0, 0⟩)
  else
    match load_tables_from_drive_dataset o.download dataset_id with
    | Except.error e =>
      (⟨200, "No se pudo cargar el dataset '" ++ dataset_id ++ "': " ++ e⟩, ⟨1, 0, 0⟩)
    | Except.ok tables =>
      let dataset_name := ((resolve DATASETS_SPREADSHEETS dataset_id).map
        DatasetEntry.name).getD dataset_id
      let r := runPipeline o question tables
        (fun a => wrap_with_trace_html a dataset_id dataset_name session.user_email o.now)
      (r.1, ⟨r.2.datasetLoads + 1, r.2.modelCalls, r.2.snippetExecs⟩)

/-- The `/chat` request payload (`ChatRequest`, lines 1050-1052). -/
structure ChatPayload where
  query : String
  dataset_id : Option String

/-- `POST /chat` (main.py lines 1300-1335): auth dependency; the Python
truthiness test `if not payload.dataset_id` (an absent or empty id) returns
the pick-a-dataset card; an id outside `DATASETS_SPREADSHEETS` returns the
invalid-dataset card; otherwise the request is handed to the
`/ask/{dataset_id}` handler as a direct function call. -/
def chat_endpoint (env : Env) (o : Oracles) (session : Session)
    (payload : ChatPayload) : HttpResponse × Effects :=
  if !session.authenticated then (⟨401, "Not authenticated"⟩, ⟨0, 0, 0⟩)
  else
    match payload.dataset_id with
    | none =>
      (⟨200, error_card_html "No se seleccionó un dataset"
        ["Selecciona un dataset en el menú desplegable (barra superior).",
         "Después vuelve a enviar tu consulta."]
        (some "Fuente (dataset): no seleccionado")⟩, ⟨0, 0, 0⟩)
    | some d =>
      if d = "" then
        (⟨200, error_card_html "No se seleccionó un dataset"
          ["Selecciona un dataset en el menú desplegable (barra superior).",
           "Después vuelve a enviar tu consulta."]
          (some "Fuente (dataset): no seleccionado")⟩, ⟨0, 0, 0⟩)
      else if (resolve DATASETS_SPREADSHEETS d).isNone then
        (⟨200, error_card_html "Dataset inválido"
          ["El dataset_id recibido no existe o no está autorizado: " ++ d,
           "Selecciona un dataset válido desde el selector."]
          (some ("Fuente (dataset): " ++ d))⟩, ⟨0, 0, 0⟩)
      else ask_on_dataset_endpoint env o session d payload.query

/-- `POST /upload_excel` (main.py lines 1126-1157): auth dependency, the
production 410, otherwise the uploaded workbook replaces the process-wide
default table set (the per-sheet summary body is not inspected by any claim
and is represented by its fixed message).  The third component is the value
of `tables_global` after the request. -/
def upload_excel_endpoint (env : Env) (session : Session) (uploaded : Workbook)
    (tables_global : Workbook) : HttpResponse × Effects × Workbook :=
  if !session.authenticated then
    (⟨401, "Not authenticated"⟩, ⟨0, 0, 0⟩, tables_global)
  else if IS_PROD env then
    (⟨410, "Endpoint deshabilitado. Usa datasets desde Google Drive (selector)."⟩,
      ⟨0, 0, 0⟩, tables_global)
  else
    (⟨200, "Archivo cargado. Tablas actualizadas."⟩, ⟨0, 0, 0⟩, uploaded)

/-- `GET /debug/drive-dataset/{dataset_id}` (main.py lines 299-333): auth
dependency, cloud load, `{ok: false, error}` with status 500 on failure,
status 200 with the per-sheet summary on success (the JSON bodies are
represented by their text content). -/
def debug_drive_dataset_endpoint (o : Oracles) (session : Session)
    (dataset_id : String) : HttpResponse × Effects :=
  if !session.authenticated then (⟨401, "Not authenticated"⟩, ⟨0, 0, 0⟩)
  else
    match load_tables_from_drive_dataset o.download dataset_id with
    | Except.error e => (⟨500, "ok: false; error: " ++ e⟩, ⟨1, 0, 0⟩)
    | Except.ok _ => (⟨200, "ok: true; dataset_id: " ++ dataset_id⟩, ⟨1, 0, 0⟩)

/-! ## The Python heap view of the `tables` binding

`safe_locals = {"tables": {name: df.copy() for name, df in tables.items()}}`
(main.py lines 1187 and 1252) builds a fresh dict whose values are
`DataFrame.copy()` results.  pandas `DataFrame.copy` defaults to `deep=True`:
the copy is a new object holding its own copy of the data, and pandas
documents that modifications to the data of the copy are not reflected in the
original.  To state what a snippet can and cannot do to the shared table set,
DataFrame objects are given identities: a heap is a store of DataFrame
values, a table dict maps sheet names to references into the store, and a
snippet acts on its own dict through rebinds, deletions, and in-place cell
assignments (`df.iloc[i, j] = v`, which writes to the referenced object). -/

/-- A reference to a DataFrame object: an index into the store. -/
abbrev Ref := Nat

/-- The store of live DataFrame objects. -/
structure PyHeap where
  store : List DataFrame

/-- Dereference (out-of-range references never arise below). -/
def PyHeap.get (h : PyHeap) (r : Ref) : DataFrame := h.store.getD r ⟨[], []⟩

/-- A Python dict from sheet name to DataFrame object. -/
abbrev PyDict := List (String × Ref)

/-- The `{name: df.copy() for name, df in tables.items()}` comprehension: a
fresh dict whose every value is a freshly allocated deep copy of the
referenced table (the copy is appended to the store; its reference is the
store's previous length). -/
def copyTables (h : PyHeap) (d : PyDict) : PyHeap × PyDict :=
  d.foldl
    (fun (acc : PyHeap × PyDict) entry =>
      (⟨acc.1.store ++ [acc.1.get entry.2]⟩,
        acc.2 ++ [(entry.1, acc.1.store.length)]))
    (h, [])

/-- What a snippet can do to its `tables` dict: rebind a key to a new
DataFrame, delete a key, or assign one cell of the object a key refers to. -/
inductive SnippetOp
  | rebind (key : String) (df : DataFrame)
  | delete (key : String)
  | setCell (key : String) (i j : Nat) (v : Cell)

/-- Assign cell `(i, j)` of a DataFrame. -/
def DataFrame.setCell (df : DataFrame) (i j : Nat) (v : Cell) : DataFrame :=
  ⟨df.columns, df.rows.modify (fun row => row.set j v) i⟩

/-- Run one snippet operation on the snippet's dict and the heap. -/
def runOp (st : PyHeap × PyDict) : SnippetOp → PyHeap × PyDict
  | SnippetOp.rebind key df =>
    (⟨st.1.store ++ [df]⟩, (st.2.filter (fun e => e.1 ≠ key)) ++ [(key, st.1.store.length)])
  | SnippetOp.delete key => (st.1, st.2.filter (fun e => e.1 ≠ key))
  | SnippetOp.setCell key i j v =>
    match st.2.lookup key with
    | none => st
    | some r => (⟨st.1.store.set r ((st.1.get r).setCell i j v)⟩, st.2)

/-- Run a snippet, modelled as its sequence of operations. -/
def runOps (ops : List SnippetOp) (st : PyHeap × PyDict) : PyHeap × PyDict :=
  ops.foldl runOp st

/-- The table set a dict denotes: each name with the DataFrame its reference
holds. -/
def sharedTables (h : PyHeap) (d : PyDict) : List (String × DataFrame) :=
  d.map (fun e => (e.1, h.get e.2))

/-! ## Concrete fixtures used by the closed theorems below -/

/-- A one-column, one-row table. -/
def dfSheet : DataFrame := ⟨["a"], [[some "1"]]⟩

/-- A one-sheet workbook. -/
def wbTest : Workbook := [("Hoja1", dfSheet)]

/-- A concrete oracle record: the code-generation call returns a snippet, the
snippet finishes without producing `result`, every download parses to
`wbTest`. -/
def oTest : Oracles :=
  { codegenLLM := fun _ _ => Except.ok "result = 1"
    explainLLM := fun _ _ _ => Except.ok "listo"
    execSnippet := fun _ _ => ExecOutcome.finishes none
    download := fun _ => Except.ok wbTest
    reprFrame := fun _ => ""
    reprSeries := fun _ => ""
    now := "2025-01-01 00:00" }

/-- An authenticated session. -/
def sessionAuth : Session := ⟨true, some "user@pulsoinmobiliario.com"⟩

/-- A session whose authenticated flag is not set. -/
def sessionAnon : Session := ⟨false, none⟩

/-- An empty process environment. -/
def envLocal : Env := fun _ => none

/-- A process environment with `ENV=prod`. -/
def envProd : Env := fun k => if k = "ENV" then some "prod" else none

/-- A process environment with `ENV=production` (and `ENVIRONMENT` unset). -/
def envENVproduction : Env := fun k => if k = "ENV" then some "production" else none

/-- A process environment with `ENVIRONMENT=prod` (and `ENV` unset). -/
def envENVIRONMENTprod : Env := fun k => if k = "ENVIRONMENT" then some "prod" else none

/-! ## Claim theorems -/

/-- C1: the cloud dataset loader is NOT available as a module-level operation:
`src/data_loader.py` writes `def load_tables_from_drive_dataset` at
indentation 4 — inside `load_tables_for_dataset_id` — with its body at the
same indentation 4, so the `def` neither sits at module level nor has a
well-formed inner block; importing `data_loader` (as `main.py` does at lines
22-28) raises `IndentationError` before any name is bound.  The re-indented
body itself does follow the claimed contract, evaluated here at concrete
inputs: an id missing from the registry fails with the configuration error,
and a configured id returns every sheet of the downloaded workbook keyed by
sheet name. -/
theorem C1_drive_loader_not_module_level :
    pythonModuleLevelDef loadDrive_def_indent loadDrive_body_indent = false
    ∧ loadDrive_body_indent ≤ loadDrive_def_indent
    ∧ load_tables_from_drive_dataset oTest.download "noi_inmuebles" =
        Except.error "Dataset 'noi_inmuebles' no está configurado en DATASETS_SPREADSHEETS."
    ∧ load_tables_from_drive_dataset oTest.download "gestion_personal" = Except.ok wbTest := by
  refine ⟨by decide, by decide, by decide, by decide⟩

/-- C2: on the code as written, registry resolution does succeed exactly for
the keys of the configured map, but the final binding of
`DATASETS_SPREADSHEETS` (the third assignment, lines 50-56) contains only
`gestion_personal` — with display name `"Personal – gestion_personal"` — so
resolving `"noi_inmuebles"` fails; the three-entry production map the claim
describes is the first, overwritten assignment (lines 16-29). -/
theorem C2_registry_final_binding :
    resolve DATASETS_SPREADSHEETS "noi_inmuebles" = none
    ∧ DATASETS_SPREADSHEETS.map Prod.fst = ["gestion_personal"]
    ∧ resolve DATASETS_SPREADSHEETS "gestion_personal" =
        some ⟨"Personal – gestion_personal", some "13hRSF7BPFbHWZ16sQgRd8ix8JGxp2JkSPirQQ3ij2bA"⟩
    ∧ DATASETS_SPREADSHEETS_rev1.map Prod.fst =
        ["noi_inmuebles", "gestion_personal", "operaciones"]
    ∧ resolve DATASETS_SPREADSHEETS_rev1 "noi_inmuebles" =
        some ⟨"Finanzas – noi inmuebles", some "1evlA46rpcMJ129Dwj33Eycg64yNwoTi9"⟩ := by
  refine ⟨by decide, by decide, by decide, by decide, by decide⟩

/-- C3: every hardened data-bearing route (`POST /ask`, `POST
/ask/{dataset_id}`, `POST /chat`, `POST /upload_excel`, `GET
/debug/drive-dataset/{dataset_id}`) carries the `Depends(require_auth)`
dependency, so a request whose session lacks the authenticated flag gets the
401 response, no dataset load, no model call and no snippet execution — and
the upload route leaves the default table set untouched. -/
theorem C3_unauthenticated_all_routes_401 :
    ∀ (env : Env) (o : Oracles) (session : Session) (tg uploaded : Workbook)
      (q id : String) (payload : ChatPayload),
    session.authenticated = false →
    ask_endpoint env o session tg q = (⟨401, "Not authenticated"⟩, ⟨0, 0, 0⟩)
    ∧ ask_on_dataset_endpoint env o session id q = (⟨401, "Not authenticated"⟩, ⟨0, 0, 0⟩)
    ∧ chat_endpoint env o session payload = (⟨401, "Not authenticated"⟩, ⟨0, 0, 0⟩)
    ∧ upload_excel_endpoint env session uploaded tg = (⟨401, "Not authenticated"⟩, ⟨0, 0, 0⟩, tg)
    ∧ debug_drive_dataset_endpoint o session id = (⟨401, "Not authenticated"⟩, ⟨0, 0, 0⟩) := by
  intro env o session tg uploaded q id payload h
  refine ⟨?_, ?_, ?_, ?_, ?_⟩ <;>
    simp [ask_endpoint, ask_on_dataset_endpoint, chat_endpoint, upload_excel_endpoint,
      debug_drive_dataset_endpoint, h]

/-- Witness for C3: the five routes evaluated at a concrete unauthenticated
request. -/
theorem C3_unauthenticated_all_routes_401_witness :
    ask_endpoint envLocal oTest sessionAnon wbTest "q" = (⟨401, "Not authenticated"⟩, ⟨0, 0, 0⟩)
    ∧ ask_on_dataset_endpoint envLocal oTest sessionAnon "gestion_personal" "q" =
        (⟨401, "Not authenticated"⟩, ⟨0, 0, 0⟩)
    ∧ chat_endpoint envLocal oTest sessionAnon ⟨"q", some "gestion_personal"⟩ =
        (⟨401, "Not authenticated"⟩, ⟨0, 0, 0⟩)
    ∧ upload_excel_endpoint envLocal sessionAnon wbTest wbTest =
        (⟨401, "Not authenticated"⟩, ⟨0, 0, 0⟩, wbTest)
    ∧ debug_drive_dataset_endpoint oTest sessionAnon "gestion_personal" =
        (⟨401, "Not authenticated"⟩, ⟨0, 0, 0⟩) :=
  C3_unauthenticated_all_routes_401 envLocal oTest sessionAnon wbTest wbTest "q"
    "gestion_personal" ⟨"q", some "gestion_personal"⟩ (by decide)

/-- C8 counterexample: neither `ENV=production` nor `ENVIRONMENT=prod`
switches the service into production mode.  With `ENV=production` (and
`ENVIRONMENT` unset) `IS_PROD` is false — the lowered value `"production"` is
compared against `"prod"` — so the docs stay mounted, `POST /upload_excel`
answers 200 instead of 410, and `POST /ask` runs the pipeline (one model
call) instead of returning the substitute message; with `ENVIRONMENT=prod`
the docs also stay mounted and `IS_PROD` is false. -/
theorem C8_counterexample_env_production :
    IS_PROD envENVproduction = false
    ∧ docs_url envENVproduction = some "/docs"
    ∧ (upload_excel_endpoint envENVproduction sessionAuth wbTest []).1.status = 200
    ∧ (ask_endpoint envENVproduction oTest sessionAuth wbTest "q").1.answer ≠ askProdMessage
    ∧ (ask_endpoint envENVproduction oTest sessionAuth wbTest "q").2.modelCalls = 1
    ∧ IS_PROD envENVIRONMENTprod = false
    ∧ docs_url envENVIRONMENTprod = some "/docs" := by
  refine ⟨by decide, by decide, by decide, by decide, by decide, by decide, by decide⟩

/-- C8 (amended): the lockdown is split over two independent variables.
`IS_PROD` holds exactly when the lower-cased value of `ENV` (default
`"local"`) equals `"prod"`; the interactive docs are unmounted exactly when
`ENVIRONMENT` equals the literal `"production"` (default `"development"`);
and in `IS_PROD` mode an authenticated `POST /upload_excel` returns 410
without touching the default table set and `POST /ask` returns the fixed
substitute message with no pipeline action. -/
theorem C8_production_mode_characterisation :
    ∀ (env : Env) (o : Oracles) (session : Session) (uploaded tg : Workbook) (q : String),
    (IS_PROD env = (pyLowerStr ((env "ENV").getD "local") = "prod" : Bool))
    ∧ (docs_url env =
        if (env "ENVIRONMENT").getD "development" = "production" then none else some "/docs")
    ∧ (session.authenticated = true → IS_PROD env = true →
        upload_excel_endpoint env session uploaded tg =
          (⟨410, "Endpoint deshabilitado. Usa datasets desde Google Drive (selector)."⟩,
            ⟨0, 0, 0⟩, tg)
        ∧ ask_endpoint env o session tg q = (⟨200, askProdMessage⟩, ⟨0, 0, 0⟩)) := by
  intro env o session uploaded tg q
  refine ⟨rfl, ?_, ?_⟩
  · by_cases h : (env "ENVIRONMENT").getD "development" = "production" <;>
      simp [docs_url, ENVIRONMENT_value, getenv, h]
  · intro hauth hprod
    constructor <;> simp [upload_excel_endpoint, ask_endpoint, hauth, hprod]

theorem toList_append (a b : String) : (a ++ b).toList = a.toList ++ b.toList := by
  cases a; cases b; rfl

theorem containsSubstr_mono_left (s t p : String) (h : containsSubstr t p = true) :
    containsSubstr (s ++ t) p = true := by
  unfold containsSubstr at h ⊢
  rw [toList_append]
  exact occursIn_extend_left _ _ h _

theorem containsSubstr_mono_right (s t p : String) (h : containsSubstr s p = true) :
    containsSubstr (s ++ t) p = true := by
  unfold containsSubstr at h ⊢
  rw [toList_append]
  exact occursIn_extend_right _ _ h _

theorem containsSubstr_self (p : String) : containsSubstr p p = true :=
  occursIn_refl p.toList

theorem containsSubstr_self_mid (pre mid post : String) :
    containsSubstr (pre ++ mid ++ post) mid = true :=
  containsSubstr_mono_right _ _ _ (containsSubstr_mono_left _ _ _ (containsSubstr_self mid))

theorem htmlEscape_append (a b : String) :
    htmlEscape (a ++ b) = htmlEscape a ++ htmlEscape b := by
  unfold htmlEscape
  rw [toList_append, List.flatMap_append]
  rfl

/-- A bullet's escaped text occurs in the rendered error card. -/
theorem error_card_contains_bullet (title : String) (bullets : List String)
    (trace : Option String) (b : String) (hb : b ∈ bullets) :
    containsSubstr (error_card_html title bullets trace) (htmlEscape b) = true := by
  have hitems : containsSubstr
      (concatAll (bullets.map (fun x => "<li>" ++ htmlEscape x ++ "</li>"))) (htmlEscape b)
      = true := by
    induction bullets with
    | nil => cases hb
    | cons b1 bs ih =>
      rcases List.mem_cons.mp hb with h | h
      · subst h
        show containsSubstr (("<li>" ++ htmlEscape b ++ "</li>") ++ _) (htmlEscape b) = true
        exact containsSubstr_mono_right _ _ _
          (containsSubstr_mono_right _ _ _
            (containsSubstr_mono_left _ _ _ (containsSubstr_self _)))
      · exact containsSubstr_mono_left _ _ _ (ih h)
  unfold error_card_html
  exact containsSubstr_mono_right _ _ _ (containsSubstr_mono_right _ _ _
    (containsSubstr_mono_right _ _ _ (containsSubstr_mono_left _ _ _ hitems)))

/-- The escaped title occurs in the rendered error card. -/
theorem error_card_contains_title (title : String) (bullets : List String)
    (trace : Option String) :
    containsSubstr (error_card_html title bullets trace) (htmlEscape title) = true := by
  unfold error_card_html
  refine containsSubstr_mono_right _ _ _ (containsSubstr_mono_right _ _ _
    (containsSubstr_mono_right _ _ _ (containsSubstr_mono_right _ _ _
      (containsSubstr_mono_right _ _ _ (containsSubstr_mono_right _ _ _ ?_)))))
  exact containsSubstr_mono_left _ _ _ (containsSubstr_self _)

/-- C4: the `/chat` dataset gate.  For an authenticated request: an absent (or
empty — the source's Python truthiness test) `dataset_id` yields a 200
response whose answer carries the pick-a-dataset guidance and triggers no
load, model call or execution; a non-empty id absent from the registry yields
a 200 response whose answer carries the invalid-dataset card naming that id,
again with no pipeline action; a configured id hands the request to the
`/ask/{dataset_id}` handler. -/
theorem C4_chat_dataset_gate :
    ∀ (env : Env) (o : Oracles) (session : Session) (payload : ChatPayload),
    session.authenticated = true →
    ((payload.dataset_id = none ∨ payload.dataset_id = some "" →
      (chat_endpoint env o session payload).1.status = 200
      ∧ containsSubstr (chat_endpoint env o session payload).1.answer
          "Selecciona un dataset en el menú desplegable (barra superior)." = true
      ∧ (chat_endpoint env o session payload).2 = ⟨0, 0, 0⟩)
    ∧ (∀ d, payload.dataset_id = some d → d ≠ "" → resolve DATASETS_SPREADSHEETS d = none →
      (chat_endpoint env o session payload).1.status = 200
      ∧ containsSubstr (chat_endpoint env o session payload).1.answer
          (htmlEscape ("El dataset_id recibido no existe o no está autorizado: " ++ d)) = true
      ∧ containsSubstr (chat_endpoint env o session payload).1.answer "Dataset inválido" = true
      ∧ (chat_endpoint env o session payload).2 = ⟨0, 0, 0⟩)
    ∧ (∀ d, payload.dataset_id = some d → (resolve DATASETS_SPREADSHEETS d).isSome = true →
      chat_endpoint env o session payload = ask_on_dataset_endpoint env o session d payload.query)) := by
  intro env o session payload hauth
  refine ⟨?_, ?_, ?_⟩
  · intro hid
    rcases hid with h | h
    · simp only [chat_endpoint, hauth, Bool.not_true, Bool.false_eq_true, if_false, h]
      exact ⟨trivial, by decide, trivial⟩
    · simp only [chat_endpoint, hauth, Bool.not_true, Bool.false_eq_true, if_false, h,
        eq_self_iff_true, if_true]
      exact ⟨trivial, by decide, trivial⟩
  · intro d hd hne hres
    simp only [chat_endpoint, hauth, Bool.not_true, Bool.false_eq_true, if_false, hd, hne,
      hres, Option.isNone_none, if_true, if_false]
    refine ⟨trivial, ?_, ?_, trivial⟩
    · exact error_card_contains_bullet _ _ _ _ (List.mem_cons_self _ _)
    · have := error_card_contains_title "Dataset inválido"
        ["El dataset_id recibido no existe o no está autorizado: " ++ d,
         "Selecciona un dataset válido desde el selector."]
        (some ("Fuente (dataset): " ++ d))
      simpa using this
  · intro d hd hsome
    by_cases hde : d = ""
    · subst hde
      exact absurd hsome (by decide)
    · have hnn : (resolve DATASETS_SPREADSHEETS d).isNone = false := by
        cases hres : resolve DATASETS_SPREADSHEETS d with
        | none => rw [hres] at hsome; simp at hsome
        | some _ => rfl
      simp only [chat_endpoint, hauth, Bool.not_true, Bool.false_eq_true, if_false, hd]
      rw [if_neg hde, hnn]
      simp

/-- Witness for C4: the three branches at concrete authenticated requests —
no dataset id, the unconfigured id `"noi_inmuebles"` (absent from the final
registry), and the configured id `"gestion_personal"`. -/
theorem C4_chat_dataset_gate_witness :
    ((chat_endpoint envLocal oTest sessionAuth ⟨"q", none⟩).1.status = 200
      ∧ containsSubstr (chat_endpoint envLocal oTest sessionAuth ⟨"q", none⟩).1.answer
          "Selecciona un dataset en el menú desplegable (barra superior)." = true
      ∧ (chat_endpoint envLocal oTest sessionAuth ⟨"q", none⟩).2 = ⟨0, 0, 0⟩)
    ∧ ((chat_endpoint envLocal oTest sessionAuth ⟨"q", some "noi_inmuebles"⟩).1.status = 200
      ∧ containsSubstr (chat_endpoint envLocal oTest sessionAuth
            ⟨"q", some "noi_inmuebles"⟩).1.answer
          (htmlEscape ("El dataset_id recibido no existe o no está autorizado: "
            ++ "noi_inmuebles")) = true)
    ∧ chat_endpoint envLocal oTest sessionAuth ⟨"q", some "gestion_personal"⟩ =
        ask_on_dataset_endpoint envLocal oTest sessionAuth "gestion_personal" "q" := by
  have h := C4_chat_dataset_gate envLocal oTest sessionAuth ⟨"q", none⟩ (by decide)
  have h2 := C4_chat_dataset_gate envLocal oTest sessionAuth ⟨"q", some "noi_inmuebles"⟩
    (by decide)
  have h3 := C4_chat_dataset_gate envLocal oTest sessionAuth ⟨"q", some "gestion_personal"⟩
    (by decide)
  have hb := h2.2.1 "noi_inmuebles" rfl (by decide) (by decide)
  exact ⟨h.1 (Or.inl rfl), ⟨hb.1, hb.2.1⟩, h3.2.2 "gestion_personal" rfl (by decide)⟩

theorem runPipeline_status (o : Oracles) (q : String) (t : Workbook) (w : String → String) :
    (runPipeline o q t w).1.status = 200 := by
  unfold runPipeline
  rcases hg : generate_pandas_code o q t with e | code
  · rfl
  · rcases he : o.execSnippet code t with m | r
    · simp [he]
    · rcases r with _ | v
      · simp [he]
      · rcases hx : explain_result o q code (previewText o v) with e2 | ex <;> simp [he, hx]

/-- C7: under an authenticated session the `/ask` and `/ask/{dataset_id}`
handlers answer 200 on every path — no snippet failure (raised execution
error or missing `result`) ever surfaces as a 5xx — and when the executed
snippet finishes without producing `result`, the 200 answer is exactly the
degradation message, which carries both the literal phrase about `result` not
being generated and the generated snippet text. -/
theorem C7_snippet_failure_degrades_to_200 :
    ∀ (env : Env) (o : Oracles) (session : Session) (tg : Workbook) (q id : String),
    session.authenticated = true →
    ((ask_endpoint env o session tg q).1.status = 200
      ∧ (ask_on_dataset_endpoint env o session id q).1.status = 200)
    ∧ (∀ code, IS_PROD env = false → tg.isEmpty = false →
        generate_pandas_code o q tg = Except.ok code →
        o.execSnippet code tg = ExecOutcome.finishes none →
        (ask_endpoint env o session tg q).1.answer =
            "No se generó la variable 'result'. Código generado:\n" ++ code
        ∧ containsSubstr (ask_endpoint env o session tg q).1.answer
            "No se generó la variable 'result'." = true
        ∧ containsSubstr (ask_endpoint env o session tg q).1.answer code = true)
    ∧ (∀ tables code, load_tables_from_drive_dataset o.download id = Except.ok tables →
        generate_pandas_code o q tables = Except.ok code →
        o.execSnippet code tables = ExecOutcome.finishes none →
        (ask_on_dataset_endpoint env o session id q).1.answer =
            "No se generó la variable 'result'. Código generado:\n" ++ code
        ∧ containsSubstr (ask_on_dataset_endpoint env o session id q).1.answer
            "No se generó la variable 'result'." = true
        ∧ containsSubstr (ask_on_dataset_endpoint env o session id q).1.answer code = true) := by
  intro env o session tg q id hauth
  have hsplit : ("No se generó la variable 'result'. Código generado:\n" : String) =
      "No se generó la variable 'result'." ++ " Código generado:\n" := by decide
  refine ⟨⟨?_, ?_⟩, ?_, ?_⟩
  · unfold ask_endpoint
    rw [hauth]
    by_cases hp : IS_PROD env
    · simp [hp]
    · by_cases he : tg.isEmpty <;> simp [hp, he, runPipeline_status]
  · unfold ask_on_dataset_endpoint
    rw [hauth]
    rcases hl : load_tables_from_drive_dataset o.download id with e | t
    · simp [hl]
    · simp [hl, runPipeline_status]
  · intro code hprod hempty hg hx
    have hred : (ask_endpoint env o session tg q).1.answer =
        "No se generó la variable 'result'. Código generado:\n" ++ code := by
      simp [ask_endpoint, hauth, hprod, hempty, runPipeline, hg, hx]
    refine ⟨hred, ?_, ?_⟩
    · rw [hred, hsplit]
      exact containsSubstr_mono_right _ _ _
        (containsSubstr_mono_right _ _ _ (containsSubstr_self _))
    · rw [hred]
      exact containsSubstr_mono_left _ _ _ (containsSubstr_self _)
  · intro tables code hl hg hx
    have hred : (ask_on_dataset_endpoint env o session id q).1.answer =
        "No se generó la variable 'result'. Código generado:\n" ++ code := by
      simp [ask_on_dataset_endpoint, hauth, hl, runPipeline, hg, hx]
    refine ⟨hred, ?_, ?_⟩
    · rw [hred, hsplit]
      exact containsSubstr_mono_right _ _ _
        (containsSubstr_mono_right _ _ _ (containsSubstr_self _))
    · rw [hred]
      exact containsSubstr_mono_left _ _ _ (containsSubstr_self _)

/-- Witness for C7: a concrete authenticated request whose generated snippet
finishes without binding `result`, on both endpoints. -/
theorem C7_snippet_failure_degrades_to_200_witness :
    (ask_endpoint envLocal oTest sessionAuth wbTest "q").1.status = 200
    ∧ (ask_on_dataset_endpoint envLocal oTest sessionAuth "gestion_personal" "q").1.status = 200
    ∧ containsSubstr (ask_endpoint envLocal oTest sessionAuth wbTest "q").1.answer
        "No se generó la variable 'result'." = true
    ∧ containsSubstr
        (ask_on_dataset_endpoint envLocal oTest sessionAuth "gestion_personal" "q").1.answer
        "result = 1" = true := by
  have h := C7_snippet_failure_degrades_to_200 envLocal oTest sessionAuth wbTest "q"
    "gestion_personal" (by decide)
  have ha := h.2.1 "result = 1" (by decide) (by decide) (by decide) (by decide)
  have hb := h.2.2 wbTest "result = 1" (by decide) (by decide) (by decide)
  exact ⟨h.1.1, h.1.2, ha.2.1, hb.2.2⟩

theorem maskFilterRows_map (rows : List (List Cell)) (p : List Cell → Bool) :
    maskFilterRows rows (rows.map p) = rows.filter p := by
  induction rows with
  | nil => rfl
  | cons r rs ih =>
    by_cases h : p r <;> simp [maskFilterRows, List.filter_cons, h] <;>
      simpa [maskFilterRows] using ih

theorem reMatchHere_lits (ql : List Char) : ∀ s, reMatchHere (ql.map ReAtom.lit) s = isStartOf ql s := by
  induction ql with
  | nil => intro s; cases s <;> rfl
  | cons c cs ih =>
    intro s
    cases s with
    | nil => rfl
    | cons d ds => simp [reMatchHere, isStartOf, atomMatches, ih]

theorem reSearchL_lits (ql s : List Char) :
    reSearchL (ql.map ReAtom.lit) s = occursIn ql s := by
  induction s with
  | nil => simp [reSearchL, occursIn, reMatchHere_lits]
  | cons d ds ih => simp [reSearchL, occursIn, reMatchHere_lits, ih]

theorem compileRe_no_meta_aux :
    ∀ (l : List Char), (∀ c ∈ l, c ∉ reMetaChars) →
    l.mapM (fun c =>
      if c = '.' then some ReAtom.dot
      else if c ∈ reMetaChars then none
      else some (ReAtom.lit c)) = some (l.map ReAtom.lit) := by
  intro l
  induction l with
  | nil => intro _; rfl
  | cons c cs ih =>
    intro h
    have hc := h c (List.mem_cons_self _ _)
    have hdot : ¬c = '.' := fun he => hc (he ▸ (by decide : ('.' : Char) ∈ reMetaChars))
    rw [List.mapM_cons]
    simp only [hdot, if_false, hc, List.map_cons]
    rw [ih (fun x hx => h x (List.mem_cons_of_mem _ hx))]
    rfl

/-- A pattern containing no regex metacharacter compiles to its literal
atoms. -/
theorem compileRe_no_meta (q : String) (h : ∀ c ∈ q.toList, c ∉ reMetaChars) :
    compileRe q = some (q.toList.map ReAtom.lit) :=
  compileRe_no_meta_aux q.toList h

theorem mem_of_lookup_pairs {β : Type} :
    ∀ (l : List (String × β)) (k : String) (v : β), l.lookup k = some v → (k, v) ∈ l := by
  intro l
  induction l with
  | nil => intro k v h; simp [List.lookup] at h
  | cons p ps ih =>
    intro k v h
    rcases p with ⟨a, b⟩
    by_cases hk : k = a
    · subst hk
      simp [List.lookup] at h
      simp [h]
    · have hb : (k == a) = false := by simp [hk]
      simp [List.lookup, hb] at h
      exact List.mem_cons_of_mem _ (ih k v h)

theorem buildNormMap_snd_mem :
    ∀ (l : List String) (acc : List (String × String) × List String) (p : String × String),
    p ∈ (l.foldl
      (fun acc c =>
        let cn := normStr c
        if cn ≠ "" ∧ acc.1.lookup cn = none then (acc.1 ++ [(cn, c)], acc.2 ++ [cn])
        else acc) acc).1 →
    p ∈ acc.1 ∨ p.2 ∈ l := by
  intro l
  induction l with
  | nil => intro acc p h; exact Or.inl h
  | cons c cs ih =>
    intro acc p h
    simp only [List.foldl_cons] at h
    rcases ih _ p h with h' | h'
    · by_cases hc : normStr c ≠ "" ∧ (acc.1).lookup (normStr c) = none
      · rw [if_pos hc] at h'
        rcases List.mem_append.mp h' with h2 | h2
        · exact Or.inl h2
        · simp at h2
          right
          rw [show p.2 = c by rw [h2]]
          exact List.mem_cons_self _ _
      · rw [if_neg hc] at h'
        exact Or.inl h'
    · exact Or.inr (List.mem_cons_of_mem _ h')

/-- `best_match` only ever returns one of its candidates. -/
theorem best_match_mem (query : String) (choices : List String) (cutoff : Frac)
    (bm : String) (h : best_match query choices cutoff = some bm) : bm ∈ choices := by
  unfold best_match at h
  by_cases h0 : query = "" ∨ choices = []
  · simp [h0] at h
  · simp only [h0, if_false] at h
    rcases hg : getCloseMatches1 (normStr query) (buildNormMap choices).2 cutoff with _ | m
    · rw [hg] at h; simp at h
    · rw [hg] at h
      simp only [] at h
      have hmem := mem_of_lookup_pairs _ _ _ h
      have := buildNormMap_snd_mem choices ([], []) (m, bm) hmem
      rcases this with h2 | h2
      · simp at h2
      · exact h2

theorem mem_dedupKeepFirst :
    ∀ (l : List String) (acc : List String) (x : String),
    x ∈ l.foldl (fun acc x => if x ∈ acc then acc else acc ++ [x]) acc →
    x ∈ acc ∨ x ∈ l := by
  intro l
  induction l with
  | nil => intro acc x h; exact Or.inl h
  | cons c cs ih =>
    intro acc x h
    simp only [List.foldl_cons] at h
    rcases ih _ x h with h' | h'
    · by_cases hc : c ∈ acc
      · simp only [hc, if_true] at h'
        exact Or.inl h'
      · simp only [hc, if_false] at h'
        rcases List.mem_append.mp h' with h2 | h2
        · exact Or.inl h2
        · simp at h2
          subst h2
          exact Or.inr (List.mem_cons_self _ _)
    · exact Or.inr (List.mem_cons_of_mem _ h')

/-- Reduction of `smart_filter` past the column and empty-query guards: the
mask machinery of the source becomes a direct row filter. -/
theorem smart_filter_reduce (df : DataFrame) (col query : String) (pat : List ReAtom)
    (hc : col ∈ df.columns) (hq : normStr query ≠ "")
    (hpat : compileRe (normStr query) = some pat) :
    smart_filter df col query =
      if (df.rows.filter (fun r =>
          reSearchL pat (normStr (astypeStr (cellAt r (df.columns.indexOf col)))).toList)).isEmpty then
        match best_match query
            (dedupKeepFirst (df.rows.filterMap (fun r => cellAt r (df.columns.indexOf col))))
            cutoff072 with
        | some bm =>
          if bm = "" then Except.ok df
          else Except.ok ⟨df.columns,
            df.rows.filter (fun r => astypeStr (cellAt r (df.columns.indexOf col)) = bm)⟩
        | none => Except.ok df
      else Except.ok ⟨df.columns, df.rows.filter (fun r =>
        reSearchL pat (normStr (astypeStr (cellAt r (df.columns.indexOf col)))).toList)⟩ := by
  have hred : smart_filter df col query =
      (if (maskFilterRows df.rows ((df.rows.map
            (fun r => normStr (astypeStr (cellAt r (df.columns.indexOf col))))).map
            (fun s => reSearchL pat s.toList))).isEmpty then
        match best_match query
            (dedupKeepFirst (df.rows.filterMap (fun r => cellAt r (df.columns.indexOf col))))
            cutoff072 with
        | some bm =>
          if bm = "" then Except.ok df
          else Except.ok ⟨df.columns,
            df.rows.filter (fun r => astypeStr (cellAt r (df.columns.indexOf col)) = bm)⟩
        | none => Except.ok df
      else Except.ok ⟨df.columns, maskFilterRows df.rows ((df.rows.map
          (fun r => normStr (astypeStr (cellAt r (df.columns.indexOf col))))).map
          (fun s => reSearchL pat s.toList))⟩) := by
    simp [smart_filter, hc, hq, hpat]
  rw [List.map_map] at hred
  rw [maskFilterRows_map] at hred
  simp only [Function.comp_def] at hred
  exact hred

/-- C5 (amended): the `smart_filter` ladder.  The table is returned unchanged
when the column is absent or the normalised query is empty; otherwise stage 1
keeps the rows whose normalised column value matches the normalised query
under `re.search` semantics (`str.contains` with its default `regex=True`) —
which is plain substring containment exactly when the query has no regex
metacharacter — and returns them if any exist; otherwise `best_match` runs
over the distinct non-missing values with cutoff 0.72 and, on a match,
exactly the rows whose column value as text equals the matched value are
returned; with no match the original table comes back unchanged. -/
theorem C5_smart_filter_ladder :
    ∀ (df : DataFrame) (col query : String),
    ((col ∈ df.columns) = false → smart_filter df col query = Except.ok df)
    ∧ (normStr query = "" → smart_filter df col query = Except.ok df)
    ∧ (∀ pat, col ∈ df.columns → normStr query ≠ "" →
        compileRe (normStr query) = some pat →
        (df.rows.filter (fun r =>
            reSearchL pat (normStr (astypeStr (cellAt r (df.columns.indexOf col)))).toList) ≠ [] →
          smart_filter df col query = Except.ok ⟨df.columns,
            df.rows.filter (fun r =>
              reSearchL pat (normStr (astypeStr (cellAt r (df.columns.indexOf col)))).toList)⟩)
        ∧ (df.rows.filter (fun r =>
            reSearchL pat (normStr (astypeStr (cellAt r (df.columns.indexOf col)))).toList) = [] →
          smart_filter df col query =
            match best_match query
                (dedupKeepFirst (df.rows.filterMap (fun r => cellAt r (df.columns.indexOf col))))
                cutoff072 with
            | some bm =>
              if bm = "" then Except.ok df
              else Except.ok ⟨df.columns,
                df.rows.filter (fun r => astypeStr (cellAt r (df.columns.indexOf col)) = bm)⟩
            | none => Except.ok df))
    ∧ ((∀ c ∈ (normStr query).toList, c ∉ reMetaChars) →
        ∀ r, reSearchL ((normStr query).toList.map ReAtom.lit)
            (normStr (astypeStr (cellAt r (df.columns.indexOf col)))).toList =
          containsSubstr (normStr (astypeStr (cellAt r (df.columns.indexOf col))))
            (normStr query)) := by
  intro df col query
  refine ⟨?_, ?_, ?_, ?_⟩
  · intro h; simp [smart_filter, h]
  · intro h
    by_cases hc : col ∈ df.columns <;> simp [smart_filter, hc, h]
  · intro pat hc hq hpat
    have hred := smart_filter_reduce df col query pat hc hq hpat
    constructor
    · intro hne
      rw [hred]
      rw [if_neg (by simpa [List.isEmpty_iff] using hne)]
    · intro he
      rw [hred]
      rw [if_pos (by simpa [List.isEmpty_iff] using he)]
  · intro hmeta r
    rw [show ((normStr query).toList.map ReAtom.lit) =
      ((normStr query).toList.map ReAtom.lit) from rfl]
    rw [reSearchL_lits]
    rfl

/-- Counterexample for C5: on the two-row table with column values `"abc"`
and `"xyz"`, the query `"a.c"` (a regex in which `.` matches any character)
makes the code's stage 1 keep the `"abc"` row, while the claim's substring
reading finds no stage-1 hit, no fuzzy match (the ratio of `"abc"` against
`"a.c"` is 2/3 < 0.72), and returns the table unchanged. -/
theorem C5_counterexample_regex_not_substring :
    smart_filter (DataFrame.mk ["c"] [[some "abc"], [some "xyz"]]) "c" "a.c" =
      Except.ok ⟨["c"], [[some "abc"]]⟩
    ∧ smart_filter_claimed (DataFrame.mk ["c"] [[some "abc"], [some "xyz"]]) "c" "a.c" =
        ⟨["c"], [[some "abc"], [some "xyz"]]⟩
    ∧ smart_filter (DataFrame.mk ["c"] [[some "abc"], [some "xyz"]]) "c" "a.c" ≠
        Except.ok (smart_filter_claimed (DataFrame.mk ["c"] [[some "abc"], [some "xyz"]]) "c" "a.c") := by
  refine ⟨by decide, by decide, by decide⟩

/-- Witness for C5 (amended): the ladder evaluated on the `Nombre` table —
the query `"perez"` (metacharacter-free, so stage 1 is substring containment)
keeps exactly the `"Juan Pérez"` row. -/
theorem C5_smart_filter_ladder_witness :
    smart_filter (DataFrame.mk ["Nombre"] [[some "Juan Pérez"], [some "Ana López"]])
        "Nombre" "perez" =
      Except.ok ⟨["Nombre"], [[some "Juan Pérez"]]⟩ := by
  have h := ((C5_smart_filter_ladder
      (DataFrame.mk ["Nombre"] [[some "Juan Pérez"], [some "Ana López"]]) "Nombre"
      "perez").2.2.1
    ("perez".toList.map ReAtom.lit) (by decide) (by decide) (by decide)).1 (by decide)
  exact h.trans (by decide)

/-- C6 (amended): `smart_filter` is total and preserving, provided the
normalised query is a well-formed regular-expression pattern (it never is the
raising case once the column is absent or the normalised query empty, since
`str.contains` is then never reached): the result is an `ok` table with the
same columns, and a non-empty input yields a non-empty output on every
outcome — substring-stage hits are non-empty by the branch condition, a fuzzy
match keeps at least the row the matched value came from, and the no-match
default is the original table. -/
theorem C6_smart_filter_total_and_preserving :
    ∀ (df : DataFrame) (col query : String),
    ((col ∈ df.columns) = false ∨ normStr query = "" ∨
      (compileRe (normStr query)).isSome = true) →
    ∃ out, smart_filter df col query = Except.ok out
      ∧ out.columns = df.columns
      ∧ (df.rows ≠ [] → out.rows ≠ []) := by
  intro df col query h
  by_cases hc : col ∈ df.columns
  · by_cases hq : normStr query = ""
    · refine ⟨df, by simp [smart_filter, hc, hq], rfl, fun hr => hr⟩
    · have hpat : ∃ pat, compileRe (normStr query) = some pat := by
        rcases h with h | h | h
        · rw [h] at hc; cases hc
        · exact absurd h hq
        · exact Option.isSome_iff_exists.mp h
      rcases hpat with ⟨pat, hpat⟩
      have hred := smart_filter_reduce df col query pat hc hq hpat
      by_cases hhit : (df.rows.filter (fun r =>
          reSearchL pat (normStr (astypeStr (cellAt r (df.columns.indexOf col)))).toList)).isEmpty
      · rw [hred, if_pos hhit]
        rcases hbm : best_match query
            (dedupKeepFirst (df.rows.filterMap (fun r => cellAt r (df.columns.indexOf col))))
            cutoff072 with _ | bm
        · exact ⟨df, rfl, rfl, fun hr => hr⟩
        · by_cases hbe : bm = ""
          · refine ⟨df, ?_, rfl, fun hr => hr⟩
            show (if bm = "" then Except.ok df
              else Except.ok ⟨df.columns, df.rows.filter
                (fun r => astypeStr (cellAt r (df.columns.indexOf col)) = bm)⟩) = Except.ok df
            rw [if_pos hbe]
          · refine ⟨⟨df.columns, df.rows.filter
                (fun r => astypeStr (cellAt r (df.columns.indexOf col)) = bm)⟩, ?_, rfl,
                fun _ => ?_⟩
            · show (if bm = "" then Except.ok df
                else Except.ok ⟨df.columns, df.rows.filter
                  (fun r => astypeStr (cellAt r (df.columns.indexOf col)) = bm)⟩) =
                Except.ok ⟨df.columns, df.rows.filter
                  (fun r => astypeStr (cellAt r (df.columns.indexOf col)) = bm)⟩
              rw [if_neg hbe]
            · have hmem := best_match_mem _ _ _ _ hbm
              have hmem2 : bm ∈ df.rows.filterMap
                  (fun r => cellAt r (df.columns.indexOf col)) := by
                rcases mem_dedupKeepFirst _ [] bm hmem with h2 | h2
                · cases h2
                · exact h2
              rcases List.mem_filterMap.mp hmem2 with ⟨r, hr, hcell⟩
              have hpred : astypeStr (cellAt r (df.columns.indexOf col)) = bm := by
                rw [hcell]; rfl
              exact List.ne_nil_of_mem (List.mem_filter.mpr ⟨hr, by simp [hpred]⟩)
      · rw [hred, if_neg hhit]
        refine ⟨_, rfl, rfl, fun _ => ?_⟩
        simpa [List.isEmpty_iff] using hhit
  · have hcf : (col ∈ df.columns) = false := by simp [hc]
    refine ⟨df, by simp [smart_filter, hcf], rfl, fun hr => hr⟩

/-- Counterexample for C6: `smart_filter` is not total.  On a table whose
column `c` is present and with the query `"("`, the normalised query is
non-empty, so stage 1 calls `str.contains("(")`, and `re.compile("(")` raises
`re.error` (unterminated subexpression); the source has no handler, so the
call propagates the exception instead of returning a table. -/
theorem C6_counterexample_regex_raises :
    ("c" ∈ (DataFrame.mk ["c"] [[some "abc"]]).columns) = true
    ∧ normStr "(" ≠ ""
    ∧ smart_filter (DataFrame.mk ["c"] [[some "abc"]]) "c" "(" =
        Except.error "re.error: bad pattern" := by
  refine ⟨by decide, by decide, by decide⟩

/-- Witness for C6 (amended): the three outcomes evaluated at concrete
tables: a substring-stage hit, a fuzzy-stage hit (`"Jhon Smith"` against
`"John Smith"`, ratio 0.9), and the unchanged-table default (`"zzz"`). -/
theorem C6_smart_filter_total_and_preserving_witness :
    (∃ out, smart_filter (DataFrame.mk ["c"] [[some "abc"], [some "xyz"]]) "c" "abc" =
        Except.ok out
      ∧ out.columns = (DataFrame.mk ["c"] [[some "abc"], [some "xyz"]]).columns
      ∧ ((DataFrame.mk ["c"] [[some "abc"], [some "xyz"]]).rows ≠ [] → out.rows ≠ []))
    ∧ (∃ out, smart_filter (DataFrame.mk ["n"] [[some "John Smith"]]) "n" "Jhon Smith" =
        Except.ok out
      ∧ out.columns = (DataFrame.mk ["n"] [[some "John Smith"]]).columns
      ∧ ((DataFrame.mk ["n"] [[some "John Smith"]]).rows ≠ [] → out.rows ≠ []))
    ∧ (∃ out, smart_filter (DataFrame.mk ["n"] [[some "John Smith"]]) "n" "zzz" =
        Except.ok out
      ∧ out.columns = (DataFrame.mk ["n"] [[some "John Smith"]]).columns
      ∧ ((DataFrame.mk ["n"] [[some "John Smith"]]).rows ≠ [] → out.rows ≠ [])) :=
  ⟨C6_smart_filter_total_and_preserving (DataFrame.mk ["c"] [[some "abc"], [some "xyz"]])
      "c" "abc" (by decide),
   C6_smart_filter_total_and_preserving (DataFrame.mk ["n"] [[some "John Smith"]])
      "n" "Jhon Smith" (by decide),
   C6_smart_filter_total_and_preserving (DataFrame.mk ["n"] [[some "John Smith"]])
      "n" "zzz" (by decide)⟩

/-- The invariant threaded through a snippet run: the heap is at least `n`
objects long, the first `n` objects (the shared ones) are untouched, and
every reference the snippet's own dict holds points past them. -/
def heapSafe (n : Nat) (base : PyHeap) (st : PyHeap × PyDict) : Prop :=
  n ≤ st.1.store.length
  ∧ (∀ r, r < n → st.1.get r = base.get r)
  ∧ (∀ p ∈ st.2, n ≤ p.2 ∧ p.2 < st.1.store.length)

theorem heapSafe_copyTables (base : PyHeap) (d : PyDict) :
    heapSafe base.store.length base (copyTables base d) := by
  unfold copyTables
  suffices hgen : ∀ (l : PyDict) (st : PyHeap × PyDict),
      heapSafe base.store.length base st →
      heapSafe base.store.length base (l.foldl
        (fun acc entry =>
          (⟨acc.1.store ++ [acc.1.get entry.2]⟩,
            acc.2 ++ [(entry.1, acc.1.store.length)])) st) by
    exact hgen d (base, []) ⟨Nat.le_refl _, fun r _ => rfl, fun p hp => absurd hp (by simp)⟩
  intro l
  induction l with
  | nil => intro st h; exact h
  | cons e es ih =>
    intro st h
    rcases h with ⟨hlen, hpre, hrefs⟩
    rw [List.foldl_cons]
    apply ih
    refine ⟨?_, ?_, ?_⟩
    · show base.store.length ≤ (st.1.store ++ [st.1.get e.2]).length
      simp only [List.length_append, List.length_cons, List.length_nil]
      omega
    · intro r hr
      show (st.1.store ++ [st.1.get e.2]).getD r ⟨[], []⟩ = base.get r
      rw [List.getD_append _ _ _ _ (by omega)]
      exact hpre r hr
    · intro p hp
      rcases List.mem_append.mp hp with h2 | h2
      · have h3 := hrefs p h2
        refine ⟨h3.1, ?_⟩
        show p.2 < (st.1.store ++ [st.1.get e.2]).length
        simp only [List.length_append, List.length_cons, List.length_nil]
        exact Nat.lt_succ_of_lt h3.2
      · have h2' : p = (e.1, st.1.store.length) := by simpa using h2
        subst h2'
        refine ⟨hlen, ?_⟩
        show st.1.store.length < (st.1.store ++ [st.1.get e.2]).length
        simp only [List.length_append, List.length_cons, List.length_nil]
        omega

theorem heapSafe_runOp (n : Nat) (base : PyHeap) (st : PyHeap × PyDict)
    (h : heapSafe n base st) (op : SnippetOp) : heapSafe n base (runOp st op) := by
  rcases h with ⟨hlen, hpre, hrefs⟩
  cases op with
  | rebind key df =>
    refine ⟨?_, ?_, ?_⟩
    · show n ≤ (st.1.store ++ [df]).length
      simp only [List.length_append, List.length_cons, List.length_nil]
      omega
    · intro r hr
      show (st.1.store ++ [df]).getD r ⟨[], []⟩ = base.get r
      rw [List.getD_append _ _ _ _ (by omega)]
      exact hpre r hr
    · intro p hp
      rcases List.mem_append.mp hp with h2 | h2
      · have h3 := hrefs p (List.mem_of_mem_filter h2)
        refine ⟨h3.1, ?_⟩
        show p.2 < (st.1.store ++ [df]).length
        simp only [List.length_append, List.length_cons, List.length_nil]
        exact Nat.lt_succ_of_lt h3.2
      · have h2' : p = (key, st.1.store.length) := by simpa using h2
        subst h2'
        refine ⟨hlen, ?_⟩
        show st.1.store.length < (st.1.store ++ [df]).length
        simp only [List.length_append, List.length_cons, List.length_nil]
        omega
  | delete key =>
    refine ⟨hlen, hpre, ?_⟩
    intro p hp
    exact hrefs p (List.mem_of_mem_filter hp)
  | setCell key i j v =>
    show heapSafe n base (match st.2.lookup key with
      | none => st
      | some r => (⟨st.1.store.set r ((st.1.get r).setCell i j v)⟩, st.2))
    rcases hk : st.2.lookup key with _ | r0
    · exact ⟨hlen, hpre, hrefs⟩
    · have hr0 : n ≤ r0 ∧ r0 < st.1.store.length :=
        hrefs (key, r0) (mem_of_lookup_pairs st.2 key r0 hk)
      refine ⟨?_, ?_, ?_⟩
      · show n ≤ (st.1.store.set r0 _).length
        simpa using hlen
      · intro r hr
        show (st.1.store.set r0 _).getD r ⟨[], []⟩ = base.get r
        rw [List.getD_eq_getElem?_getD, List.getElem?_set_ne (by omega),
          ← List.getD_eq_getElem?_getD]
        exact hpre r hr
      · intro p hp
        have h3 := hrefs p hp
        refine ⟨h3.1, ?_⟩
        show p.2 < (st.1.store.set r0 _).length
        simpa using h3.2

theorem heapSafe_runOps (n : Nat) (base : PyHeap) (st : PyHeap × PyDict)
    (h : heapSafe n base st) (ops : List SnippetOp) : heapSafe n base (runOps ops st) := by
  unfold runOps
  induction ops generalizing st with
  | nil => exact h
  | cons op ops ih => exact ih _ (heapSafe_runOp n base st h op)

/-- C9 (amended): the `tables` binding handed to the snippet maps each sheet
name to a fresh copy of the table (pandas `DataFrame.copy`, deep by default),
so no sequence of snippet operations — rebinding keys, deleting keys, or
assigning cells in place through the binding — changes either which entries
the shared table set maps to or the contents of the tables it maps to. -/
theorem C9_snippet_cannot_touch_shared_tables :
    ∀ (h : PyHeap) (d : PyDict) (ops : List SnippetOp),
    (∀ p ∈ d, p.2 < h.store.length) →
    sharedTables (runOps ops (copyTables h d)).1 d = sharedTables h d := by
  intro h d ops hwf
  have hsafe := heapSafe_runOps h.store.length h (copyTables h d)
    (heapSafe_copyTables h d) ops
  unfold sharedTables
  apply List.map_congr_left
  intro p hp
  rw [hsafe.2.1 p.2 (hwf p hp)]

/-- Counterexample for C9's final clause: in-place cell mutation through the
snippet's `tables` binding is NOT visible in the shared table set.
`DataFrame.copy()` defaults to `deep=True`, so the snippet's assignment
lands on the copy: after `setCell`, the snippet's own view of `"t"` holds
`"99"`, while the shared table set still maps `"t"` to the original table
holding `"1"`. -/
theorem C9_counterexample_inplace_mutation_not_shared :
    sharedTables (runOps [SnippetOp.setCell "t" 0 0 (some "99")]
        (copyTables ⟨[⟨["a"], [[some "1"]]⟩]⟩ [("t", 0)])).1 [("t", 0)] =
      [("t", ⟨["a"], [[some "1"]]⟩)]
    ∧ (runOps [SnippetOp.setCell "t" 0 0 (some "99")]
        (copyTables ⟨[⟨["a"], [[some "1"]]⟩]⟩ [("t", 0)])).1.get
        (((runOps [SnippetOp.setCell "t" 0 0 (some "99")]
          (copyTables ⟨[⟨["a"], [[some "1"]]⟩]⟩ [("t", 0)])).2.lookup "t").getD 0) =
      ⟨["a"], [[some "99"]]⟩ := by
  refine ⟨by decide, by decide⟩

/-- Witness for C9 (amended): a concrete snippet that rebinds, mutates a cell
and deletes a key leaves the shared table set exactly as it was. -/
theorem C9_snippet_cannot_touch_shared_tables_witness :
    sharedTables (runOps
        [SnippetOp.rebind "t" ⟨["b"], [[some "7"]]⟩,
         SnippetOp.setCell "t" 0 0 (some "99"),
         SnippetOp.delete "t"]
        (copyTables ⟨[⟨["a"], [[some "1"]]⟩]⟩ [("t", 0)])).1 [("t", 0)] =
      sharedTables ⟨[⟨["a"], [[some "1"]]⟩]⟩ [("t", 0)] :=
  C9_snippet_cannot_touch_shared_tables ⟨[⟨["a"], [[some "1"]]⟩]⟩ [("t", 0)]
    [SnippetOp.rebind "t" ⟨["b"], [[some "7"]]⟩,
     SnippetOp.setCell "t" 0 0 (some "99"),
     SnippetOp.delete "t"] (by decide)

/-- A character the normalisation pipeline maps to itself: its own lowercase,
its own NFKD decomposition, and not a combining mark. -/
def stableChar (c : Char) : Bool :=
  pyLowerChar c = c && nfkdChar c = [c] && !combiningChar c

/-- A character whose lowered decomposition consists of combining marks and
stable characters only — the input fragment on which one normalisation pass
reaches a fixed point.  `ℂ` is not good: its decomposition is the uppercase
`C`, which lowers further. -/
def goodChar (c : Char) : Bool :=
  (nfkdChar (pyLowerChar c)).all (fun d => combiningChar d || stableChar d)

theorem stableChar_lower {c : Char} (h : stableChar c = true) : pyLowerChar c = c := by
  simp [stableChar, Bool.and_eq_true] at h
  exact h.1.1

theorem stableChar_nfkd {c : Char} (h : stableChar c = true) : nfkdChar c = [c] := by
  simp [stableChar, Bool.and_eq_true] at h
  exact h.1.2

theorem stableChar_not_combining {c : Char} (h : stableChar c = true) :
    combiningChar c = false := by
  simp [stableChar, Bool.and_eq_true] at h
  exact h.2

theorem mem_stripList {c : Char} {l : List Char} (h : c ∈ stripList l) : c ∈ l := by
  unfold stripList at h
  rw [List.mem_reverse] at h
  have h2 := (List.dropWhile_sublist _).subset h
  rw [List.mem_reverse] at h2
  exact (List.dropWhile_sublist (l := l) isSpaceChar).subset h2

/-- Every character surviving the strip/lower/decompose/filter pipeline on
good input is stable. -/
theorem processed_stable (l : List Char) (h : ∀ c ∈ l, goodChar c = true) :
    ∀ c ∈ ((((stripList l).map pyLowerChar).flatMap nfkdChar).filter
      (fun c => !combiningChar c)), stableChar c = true := by
  intro c hc
  rw [List.mem_filter] at hc
  rcases hc with ⟨hc, hnc⟩
  rw [List.mem_flatMap] at hc
  rcases hc with ⟨a, ha, hca⟩
  rw [List.mem_map] at ha
  rcases ha with ⟨b, hb, hba⟩
  have hg := h b (mem_stripList hb)
  rw [goodChar, List.all_eq_true] at hg
  have := hg c (by rw [hba]; exact hca)
  rcases Bool.or_eq_true _ _ |>.mp this with h2 | h2
  · rw [h2] at hnc; cases hnc
  · exact h2

/-- The words produced by the split worker are non-empty, space-free, and
drawn from the input (or the current accumulator). -/
theorem splitWordsAux_words :
    ∀ (l cur : List Char), (∀ c ∈ cur, isSpaceChar c = false) →
    ∀ w ∈ splitWordsAux l cur,
      w ≠ [] ∧ ∀ c ∈ w, (c ∈ l ∨ c ∈ cur) ∧ isSpaceChar c = false := by
  intro l
  induction l with
  | nil =>
    intro cur hcur w hw
    unfold splitWordsAux at hw
    by_cases hce : cur.isEmpty
    · rw [if_pos hce] at hw; cases hw
    · rw [if_neg hce] at hw
      simp at hw
      subst hw
      refine ⟨by simpa [List.isEmpty_iff] using hce, ?_⟩
      intro c hcw
      rw [List.mem_reverse] at hcw
      exact ⟨Or.inr hcw, hcur c hcw⟩
  | cons x xs ih =>
    intro cur hcur w hw
    by_cases hsp : isSpaceChar x
    · rw [show splitWordsAux (x :: xs) cur =
          (if cur.isEmpty then splitWordsAux xs []
           else cur.reverse :: splitWordsAux xs []) by simp [splitWordsAux, hsp]] at hw
      by_cases hce : cur.isEmpty
      · rw [if_pos hce] at hw
        have := ih [] (by intro c hc; cases hc) w hw
        refine ⟨this.1, fun c hcw => ?_⟩
        have h2 := this.2 c hcw
        rcases h2.1 with h3 | h3
        · exact ⟨Or.inl (List.mem_cons_of_mem _ h3), h2.2⟩
        · cases h3
      · rw [if_neg hce] at hw
        rcases List.mem_cons.mp hw with hw1 | hw1
        · subst hw1
          refine ⟨by simpa [List.isEmpty_iff] using hce, ?_⟩
          intro c hcw
          rw [List.mem_reverse] at hcw
          exact ⟨Or.inr hcw, hcur c hcw⟩
        · have := ih [] (by intro c hc; cases hc) w hw1
          refine ⟨this.1, fun c hcw => ?_⟩
          have h2 := this.2 c hcw
          rcases h2.1 with h3 | h3
          · exact ⟨Or.inl (List.mem_cons_of_mem _ h3), h2.2⟩
          · cases h3
    · rw [show splitWordsAux (x :: xs) cur = splitWordsAux xs (x :: cur) by
        simp [splitWordsAux, hsp]] at hw
      have hcur' : ∀ c ∈ x :: cur, isSpaceChar c = false := by
        intro c hc
        rcases List.mem_cons.mp hc with h2 | h2
        · subst h2; simpa using hsp
        · exact hcur c h2
      have := ih (x :: cur) hcur' w hw
      refine ⟨this.1, fun c hcw => ?_⟩
      have h2 := this.2 c hcw
      rcases h2.1 with h3 | h3
      · exact ⟨Or.inl (List.mem_cons_of_mem _ h3), h2.2⟩
      · rcases List.mem_cons.mp h3 with h4 | h4
        · subst h4; exact ⟨Or.inl (List.mem_cons_self _ _), h2.2⟩
        · exact ⟨Or.inr h4, h2.2⟩

theorem mem_joinSpace (ws : List (List Char)) (c : Char) (h : c ∈ joinSpace ws) :
    c = ' ' ∨ ∃ w ∈ ws, c ∈ w := by
  induction ws with
  | nil => cases h
  | cons w ws ih =>
    cases ws with
    | nil => exact Or.inr ⟨w, List.mem_cons_self _ _, h⟩
    | cons w2 ws2 =>
      rw [show joinSpace (w :: w2 :: ws2) = w ++ ' ' :: joinSpace (w2 :: ws2) from rfl] at h
      rcases List.mem_append.mp h with h2 | h2
      · exact Or.inr ⟨w, List.mem_cons_self _ _, h2⟩
      · rcases List.mem_cons.mp h2 with h3 | h3
        · exact Or.inl h3
        · rcases ih h3 with h4 | ⟨w3, hw3, hcw3⟩
          · exact Or.inl h4
          · exact Or.inr ⟨w3, List.mem_cons_of_mem _ hw3, hcw3⟩

theorem map_pyLower_stable (l : List Char) (h : ∀ c ∈ l, stableChar c = true) :
    l.map pyLowerChar = l := by
  induction l with
  | nil => rfl
  | cons c cs ih =>
    rw [List.map_cons, stableChar_lower (h c (List.mem_cons_self _ _)),
      ih (fun x hx => h x (List.mem_cons_of_mem _ hx))]

theorem flatMap_nfkd_stable (l : List Char) (h : ∀ c ∈ l, stableChar c = true) :
    l.flatMap nfkdChar = l := by
  induction l with
  | nil => rfl
  | cons c cs ih =>
    rw [List.flatMap_cons, stableChar_nfkd (h c (List.mem_cons_self _ _)),
      ih (fun x hx => h x (List.mem_cons_of_mem _ hx))]
    rfl

theorem filter_combining_stable (l : List Char) (h : ∀ c ∈ l, stableChar c = true) :
    l.filter (fun c => !combiningChar c) = l := by
  induction l with
  | nil => rfl
  | cons c cs ih =>
    rw [List.filter_cons]
    rw [show (!combiningChar c) = true by
      rw [stableChar_not_combining (h c (List.mem_cons_self _ _))]; rfl]
    rw [if_pos rfl, ih (fun x hx => h x (List.mem_cons_of_mem _ hx))]

theorem splitWordsAux_spaces (sp : List Char) (hsp : ∀ c ∈ sp, isSpaceChar c = true) :
    ∀ cur, splitWordsAux sp cur = if cur.isEmpty then [] else [cur.reverse] := by
  induction sp with
  | nil => intro cur; rfl
  | cons s ss ih =>
    intro cur
    have hs := hsp s (List.mem_cons_self _ _)
    rw [show splitWordsAux (s :: ss) cur =
        (if cur.isEmpty then splitWordsAux ss [] else cur.reverse :: splitWordsAux ss []) by
      simp [splitWordsAux, hs]]
    rw [ih (fun c hc => hsp c (List.mem_cons_of_mem _ hc)) []]
    by_cases hce : cur.isEmpty <;> simp [hce]

theorem splitWordsAux_append_spaces (l sp : List Char)
    (hsp : ∀ c ∈ sp, isSpaceChar c = true) :
    ∀ cur, splitWordsAux (l ++ sp) cur = splitWordsAux l cur := by
  induction l with
  | nil =>
    intro cur
    rw [List.nil_append, splitWordsAux_spaces sp hsp cur]
    rfl
  | cons x xs ih =>
    intro cur
    by_cases hsx : isSpaceChar x <;>
      simp [splitWordsAux, hsx, ih]

theorem splitWordsAux_dropWhile_spaces (l : List Char) :
    splitWordsAux (l.dropWhile isSpaceChar) [] = splitWordsAux l [] := by
  induction l with
  | nil => rfl
  | cons x xs ih =>
    by_cases hsx : isSpaceChar x
    · rw [List.dropWhile_cons, if_pos hsx, ih]
      simp [splitWordsAux, hsx]
    · rw [List.dropWhile_cons, if_neg hsx]

theorem splitWords_stripList (l : List Char) : splitWords (stripList l) = splitWords l := by
  unfold splitWords
  have hdecomp : l.dropWhile isSpaceChar =
      stripList l ++ ((l.dropWhile isSpaceChar).reverse.takeWhile isSpaceChar).reverse := by
    have htd : ((l.dropWhile isSpaceChar).reverse.takeWhile isSpaceChar) ++
        ((l.dropWhile isSpaceChar).reverse.dropWhile isSpaceChar) =
        (l.dropWhile isSpaceChar).reverse := List.takeWhile_append_dropWhile _ _
    calc l.dropWhile isSpaceChar
        = (l.dropWhile isSpaceChar).reverse.reverse := (List.reverse_reverse _).symm
      _ = (((l.dropWhile isSpaceChar).reverse.takeWhile isSpaceChar) ++
            ((l.dropWhile isSpaceChar).reverse.dropWhile isSpaceChar)).reverse := by rw [htd]
      _ = ((l.dropWhile isSpaceChar).reverse.dropWhile isSpaceChar).reverse ++
            ((l.dropWhile isSpaceChar).reverse.takeWhile isSpaceChar).reverse :=
          List.reverse_append _ _
      _ = stripList l ++ ((l.dropWhile isSpaceChar).reverse.takeWhile isSpaceChar).reverse :=
          rfl
  have hsp : ∀ c ∈ ((l.dropWhile isSpaceChar).reverse.takeWhile isSpaceChar).reverse,
      isSpaceChar c = true := by
    intro c hc
    rw [List.mem_reverse] at hc
    exact List.mem_takeWhile_imp hc
  calc splitWordsAux (stripList l) []
      = splitWordsAux (stripList l ++
          ((l.dropWhile isSpaceChar).reverse.takeWhile isSpaceChar).reverse) [] :=
        (splitWordsAux_append_spaces _ _ hsp []).symm
    _ = splitWordsAux (l.dropWhile isSpaceChar) [] := by rw [← hdecomp]
    _ = splitWordsAux l [] := splitWordsAux_dropWhile_spaces l

theorem splitWordsAux_word (w : List Char) (hw : ∀ c ∈ w, isSpaceChar c = false) :
    ∀ (r cur : List Char), splitWordsAux (w ++ r) cur = splitWordsAux r (w.reverse ++ cur) := by
  induction w with
  | nil => intro r cur; simp
  | cons x xs ih =>
    intro r cur
    have hx := hw x (List.mem_cons_self _ _)
    rw [List.cons_append,
      show splitWordsAux (x :: (xs ++ r)) cur = splitWordsAux (xs ++ r) (x :: cur) by
        simp [splitWordsAux, hx],
      ih (fun c hc => hw c (List.mem_cons_of_mem _ hc)) r (x :: cur)]
    simp

theorem splitWords_joinSpace (ws : List (List Char))
    (h : ∀ w ∈ ws, w ≠ [] ∧ ∀ c ∈ w, isSpaceChar c = false) :
    splitWords (joinSpace ws) = ws := by
  induction ws with
  | nil => rfl
  | cons w ws ih =>
    have hw := h w (List.mem_cons_self _ _)
    have hwrev : (w.reverse).isEmpty = false := by
      simp [List.isEmpty_iff, hw.1]
    cases ws with
    | nil =>
      have h1 := splitWordsAux_word w hw.2 [] []
      rw [List.append_nil, List.append_nil] at h1
      show splitWordsAux w [] = [w]
      rw [h1]
      show (if w.reverse.isEmpty then ([] : List (List Char)) else [w.reverse.reverse]) = [w]
      rw [hwrev]
      rw [if_neg (fun hc => Bool.noConfusion hc)]
      rw [List.reverse_reverse]
    | cons w2 ws2 =>
      have hspace : isSpaceChar ' ' = true := by decide
      have h1 := splitWordsAux_word w hw.2 (' ' :: joinSpace (w2 :: ws2)) []
      rw [List.append_nil] at h1
      show splitWordsAux (w ++ ' ' :: joinSpace (w2 :: ws2)) [] = w :: w2 :: ws2
      rw [h1]
      rw [show splitWordsAux (' ' :: joinSpace (w2 :: ws2)) w.reverse =
          w.reverse.reverse :: splitWordsAux (joinSpace (w2 :: ws2)) [] by
        simp [splitWordsAux, hspace, hwrev]]
      rw [List.reverse_reverse]
      rw [show splitWordsAux (joinSpace (w2 :: ws2)) [] = splitWords (joinSpace (w2 :: ws2))
        from rfl]
      rw [ih (fun x hx => h x (List.mem_cons_of_mem _ hx))]

/-- Every character of a normalised good string is stable. -/
theorem normList_stable_chars (l : List Char) (h : ∀ c ∈ l, goodChar c = true) :
    ∀ c ∈ normList l, stableChar c = true := by
  intro c hc
  unfold normList at hc
  rcases mem_joinSpace _ c hc with h2 | ⟨w, hw, hcw⟩
  · subst h2; decide
  · have hwords := splitWordsAux_words _ [] (by intro x hx; cases hx) w hw
    have h3 := hwords.2 c hcw
    rcases h3.1 with h4 | h4
    · exact processed_stable l h c h4
    · cases h4

/-- One pass of the normalisation pipeline is a fixed point on good input. -/
theorem normList_idem (l : List Char) (h : ∀ c ∈ l, goodChar c = true) :
    normList (normList l) = normList l := by
  have hstable := normList_stable_chars l h
  have hstrip : ∀ c ∈ stripList (normList l), stableChar c = true :=
    fun c hc => hstable c (mem_stripList hc)
  have hproc : (((stripList (normList l)).map pyLowerChar).flatMap nfkdChar).filter
      (fun c => !combiningChar c) = stripList (normList l) := by
    rw [map_pyLower_stable _ hstrip, flatMap_nfkd_stable _ hstrip,
      filter_combining_stable _ hstrip]
  show joinSpace (splitWords ((((stripList (normList l)).map pyLowerChar).flatMap
    nfkdChar).filter (fun c => !combiningChar c))) = normList l
  rw [hproc, splitWords_stripList]
  have hwords : ∀ w ∈ splitWords ((((stripList l).map pyLowerChar).flatMap nfkdChar).filter
      (fun c => !combiningChar c)), w ≠ [] ∧ ∀ c ∈ w, isSpaceChar c = false := by
    intro w hw
    have := splitWordsAux_words _ [] (by intro x hx; cases hx) w hw
    exact ⟨this.1, fun c hc => (this.2 c hc).2⟩
  conv_lhs => rw [show normList l = joinSpace (splitWords ((((stripList l).map
    pyLowerChar).flatMap nfkdChar).filter (fun c => !combiningChar c))) from rfl]
  rw [splitWords_joinSpace _ hwords]
  rfl

/-- Counterexample for C10: `normalize` is not idempotent on every string.
`'ℂ'` (U+2102) has no lowercase mapping, so `lower` keeps it, and its NFKD
compatibility decomposition is the uppercase `'C'`; the first pass therefore
yields `"C"` and a second pass lowers it to `"c"`. -/
theorem C10_counterexample_double_struck_c :
    norm_text (some "ℂ") = "C"
    ∧ norm_text (some (norm_text (some "ℂ"))) = "c"
    ∧ norm_text (some (norm_text (some "ℂ"))) ≠ norm_text (some "ℂ") := by
  refine ⟨by decide, by decide, by decide⟩

/-- C10 (amended): `normalize` is idempotent on every string whose characters
are good — their lowered compatibility decompositions contain only combining
marks and stable characters, which covers all ASCII and the accented Latin
letters the application handles (but not letterlike symbols such as `'ℂ'`,
whose decomposition introduces an uppercase letter that a second pass lowers
further); the concrete examples hold: `normalize("  Á é í  ")` is `"a e i"`
and a null input normalises to `""`. -/
theorem C10_normalize_idempotent_on_good_input :
    (∀ s : String, (∀ c ∈ s.toList, goodChar c = true) →
      norm_text (some (norm_text (some s))) = norm_text (some s))
    ∧ norm_text (some "  Á é í  ") = "a e i"
    ∧ norm_text none = "" := by
  refine ⟨?_, by decide, rfl⟩
  intro s hs
  show String.mk (normList (String.mk (normList s.toList)).toList) =
    String.mk (normList s.toList)
  show String.mk (normList (normList s.toList)) = String.mk (normList s.toList)
  rw [normList_idem s.toList hs]

/-- Witness for C10 (amended): idempotence applied at the concrete good
string `"Árbol Grande"`. -/
theorem C10_normalize_idempotent_on_good_input_witness :
    (∀ c ∈ ("Árbol Grande" : String).toList, goodChar c = true)
    ∧ norm_text (some (norm_text (some "Árbol Grande"))) = norm_text (some "Árbol Grande") :=
  ⟨by decide, C10_normalize_idempotent_on_good_input.1 "Árbol Grande" (by decide)⟩

/-- Witness for C8 (amended): with `ENV=prod` the lockdown behaviours hold at
a concrete authenticated request. -/
theorem C8_production_mode_characterisation_witness :
    IS_PROD envProd = true
    ∧ upload_excel_endpoint envProd sessionAuth wbTest [] =
        (⟨410, "Endpoint deshabilitado. Usa datasets desde Google Drive (selector)."⟩,
          ⟨0, 0, 0⟩, [])
    ∧ ask_endpoint envProd oTest sessionAuth [] "q" = (⟨200, askProdMessage⟩, ⟨0, 0, 0⟩) := by
  have h := (C8_production_mode_characterisation envProd oTest sessionAuth wbTest [] "q").2.2
    (by decide) (by decide)
  exact ⟨by decide, h.1, h.2⟩

end Pulso
